import Mathlib

/-!
Shallow embedding of the hec22 storm-drainage hydraulic engine (Rust) in
Lean 4, with theorems checking the natural-language specification against
the code.  Rust `f64` values are modelled as real numbers; `Option<f64>` as
`Option ℝ`; fallible functions returning `Result<_, String>` as
`Except String _`.  `HashMap<String, f64>` is modelled as an association
list consulted through `List.lookup` (inserts cons a fresh binding, which
`List.lookup` sees first, matching `HashMap::insert` overwrite semantics
for every lookup the solver performs).  Loops with an iteration budget are
modelled by structural recursion on an explicit fuel equal to the source's
`max_iterations`.  Error-message strings keep the source text, except that
`format!` interpolation of ids is dropped (messages are compared only for
inequality with other fixed messages).
-/

/-- Node type classification (node.rs). -/
inductive NodeType where
  | Junction
  | Inlet
  | Outfall
deriving DecidableEq

/-- Downstream boundary condition type at an outfall (node.rs). -/
inductive BoundaryCondition where
  | Free
  | NormalDepth
  | FixedStage
  | Tidal
deriving DecidableEq

/-- Inlet type classification (node.rs). -/
inductive InletType where
  | Grate
  | CurbOpening
  | Combination
  | Slotted
deriving DecidableEq

/-- Inlet location type (node.rs). -/
inductive InletLocation where
  | OnGrade
  | Sag
deriving DecidableEq

/-- Bar configuration for grate inlets as parsed on a node (node.rs); the
inlet-calculation module has its own copy, `BarConfiguration` below. -/
inductive NodeBarConfiguration where
  | Parallel
  | Perpendicular
deriving DecidableEq

/-- Curb opening throat type on a node (node.rs); the inlet-calculation
module has its own copy, `ThroatType` below. -/
inductive NodeThroatType where
  | Horizontal
  | Inclined
  | Vertical
deriving DecidableEq

/-- Grate inlet properties (node.rs). -/
structure GrateProperties where
  length : Option ℝ
  width : Option ℝ
  bar_configuration : Option NodeBarConfiguration

/-- Curb opening inlet properties (node.rs). -/
structure CurbOpeningProperties where
  length : Option ℝ
  height : Option ℝ
  throat_type : Option NodeThroatType

/-- Inlet properties (node.rs). -/
structure InletProperties where
  inlet_type : InletType
  location : InletLocation
  grate : Option GrateProperties
  curb_opening : Option CurbOpeningProperties
  local_depression : Option ℝ
  clogging_factor : Option ℝ

/-- Junction/manhole properties (node.rs). -/
structure JunctionProperties where
  diameter : Option ℝ
  sump_depth : Option ℝ
  loss_coefficient : Option ℝ
  benching : Option Bool
  drop_structure : Option Bool

/-- Outfall properties (node.rs); the tidal curve is not consulted by the
solver and is omitted. -/
structure OutfallProperties where
  boundary_condition : BoundaryCondition
  tailwater_elevation : Option ℝ

/-- A node in the drainage network (node.rs); `name` and `coordinates` are
visualization-only and omitted. -/
structure Node where
  id : String
  node_type : NodeType
  invert_elevation : ℝ
  rim_elevation : Option ℝ
  junction : Option JunctionProperties
  inlet : Option InletProperties
  outfall : Option OutfallProperties

/-- Check if the node is an inlet (node.rs `Node::is_inlet`). -/
def Node.is_inlet (n : Node) : Bool :=
  n.node_type == NodeType.Inlet

/-- Check if the node is a junction (node.rs `Node::is_junction`). -/
def Node.is_junction (n : Node) : Bool :=
  n.node_type == NodeType.Junction

/-- Check if the node is an outfall (node.rs `Node::is_outfall`). -/
def Node.is_outfall (n : Node) : Bool :=
  n.node_type == NodeType.Outfall

/-- Conduit type classification (conduit.rs). -/
inductive ConduitType where
  | Pipe
  | Gutter
  | Channel
deriving DecidableEq

/-- Pipe cross-sectional shape (conduit.rs). -/
inductive PipeShape where
  | Circular
  | Rectangular
  | Elliptical
  | Arch
deriving DecidableEq

/-- Pipe properties (conduit.rs); `material` is not consulted by the solver
and is omitted. -/
structure PipeProperties where
  shape : PipeShape
  diameter : Option ℝ
  width : Option ℝ
  height : Option ℝ
  manning_n : ℝ
  entrance_loss : Option ℝ
  exit_loss : Option ℝ
  bend_loss : Option ℝ

/-- A conduit in the drainage network (conduit.rs); gutter- and
channel-specific property payloads are not consulted by the solver and are
omitted. -/
structure Conduit where
  id : String
  conduit_type : ConduitType
  from_node : String
  to_node : String
  length : ℝ
  upstream_invert : Option ℝ
  downstream_invert : Option ℝ
  slope : Option ℝ
  pipe : Option PipeProperties

/-- Calculate slope from invert elevations (conduit.rs
`Conduit::calculate_slope`). -/
noncomputable def Conduit.calculate_slope (c : Conduit) : Option ℝ :=
  match c.upstream_invert, c.downstream_invert with
  | some up, some down => if c.length > 0 then some ((up - down) / c.length) else none
  | _, _ => none

/-- Get the effective slope, either specified or calculated (conduit.rs
`Conduit::effective_slope`). -/
noncomputable def Conduit.effective_slope (c : Conduit) : Option ℝ :=
  c.slope.orElse (fun _ => c.calculate_slope)

/-- Drainage network topology (network.rs). -/
structure Network where
  nodes : List Node
  conduits : List Conduit

/-- Find a node by id (network.rs `Network::find_node`). -/
def Network.find_node (net : Network) (id : String) : Option Node :=
  net.nodes.find? (fun n => n.id == id)

/-- Find a conduit by id (network.rs `Network::find_conduit`). -/
def Network.find_conduit (net : Network) (id : String) : Option Conduit :=
  net.conduits.find? (fun c => c.id == id)

/-- All conduits whose downstream end is the given node (network.rs
`Network::upstream_conduits`). -/
def Network.upstream_conduits (net : Network) (node_id : String) : List Conduit :=
  net.conduits.filter (fun c => c.to_node == node_id)

/-- All conduits whose upstream end is the given node (network.rs
`Network::downstream_conduits`). -/
def Network.downstream_conduits (net : Network) (node_id : String) : List Conduit :=
  net.conduits.filter (fun c => c.from_node == node_id)

/-- All outfall nodes (network.rs `Network::outfalls`). -/
def Network.outfalls (net : Network) : List Node :=
  net.nodes.filter (fun n => n.is_outfall)

/-- Pipe flow result (hydraulics.rs `PipeFlowResult`). -/
structure PipeFlowResult where
  flow : ℝ
  depth : ℝ
  area : ℝ
  perimeter : ℝ
  hydraulic_radius : ℝ
  velocity : ℝ
  velocity_head : ℝ
  depth_ratio : ℝ
  is_full_flow : Bool

/-- Flow regime classification in the hydraulics module (hydraulics.rs
`FlowRegime`); the analysis module has its own copy,
`AnalysisFlowRegime` below. -/
inductive FlowRegime where
  | Subcritical
  | Critical
  | Supercritical
deriving DecidableEq

/-- Manning's equation calculations (hydraulics.rs `ManningsEquation`):
`k` is 1.486 for US customary units, 1.0 for SI. -/
structure ManningsEquation where
  k : ℝ

/-- Full pipe flow capacity by Manning's equation, HEC-22 Equation 9.2
(hydraulics.rs `ManningsEquation::full_pipe_capacity`). -/
noncomputable def ManningsEquation.full_pipe_capacity
    (m : ManningsEquation) (diameter slope manning_n : ℝ) : ℝ :=
  let area := Real.pi * diameter ^ (2 : ℕ) / 4
  let perimeter := Real.pi * diameter
  let hydraulic_radius := area / perimeter
  (m.k / manning_n) * area * hydraulic_radius ^ ((2 : ℝ) / 3) * Real.sqrt slope

/-- Velocity in a full pipe, V = Q / A (hydraulics.rs
`ManningsEquation::full_pipe_velocity`). -/
noncomputable def ManningsEquation.full_pipe_velocity
    (_m : ManningsEquation) (diameter flow : ℝ) : ℝ :=
  let area := Real.pi * diameter ^ (2 : ℕ) / 4
  flow / area

/-- Result for an empty pipe (hydraulics.rs
`ManningsEquation::empty_pipe_result`). -/
def ManningsEquation.empty_pipe_result
    (_m : ManningsEquation) (_diameter : ℝ) : PipeFlowResult :=
  { flow := 0, depth := 0, area := 0, perimeter := 0, hydraulic_radius := 0,
    velocity := 0, velocity_head := 0, depth_ratio := 0, is_full_flow := false }

/-- Result for a pipe flowing full (hydraulics.rs
`ManningsEquation::full_pipe_flow_result`). -/
noncomputable def ManningsEquation.full_pipe_flow_result
    (m : ManningsEquation) (diameter slope manning_n gravity : ℝ) : PipeFlowResult :=
  let area := Real.pi * diameter ^ (2 : ℕ) / 4
  let perimeter := Real.pi * diameter
  let hydraulic_radius := diameter / 4
  let flow := m.full_pipe_capacity diameter slope manning_n
  let velocity := flow / area
  let velocity_head := velocity ^ (2 : ℕ) / (2 * gravity)
  { flow := flow, depth := diameter, area := area, perimeter := perimeter,
    hydraulic_radius := hydraulic_radius, velocity := velocity,
    velocity_head := velocity_head, depth_ratio := 1, is_full_flow := true }

/-- Partial flow in a circular pipe at a given depth (hydraulics.rs
`ManningsEquation::partial_pipe_flow`). -/
noncomputable def ManningsEquation.partial_pipe_flow
    (m : ManningsEquation) (diameter depth slope manning_n gravity : ℝ) : PipeFlowResult :=
  let radius := diameter / 2
  let depth_ratio := depth / diameter
  if depth ≤ 0 then m.empty_pipe_result diameter
  else if depth ≥ diameter then m.full_pipe_flow_result diameter slope manning_n gravity
  else
    let theta := 2 * Real.arccos ((radius - depth) / radius)
    let area := (radius ^ (2 : ℕ) / 2) * (theta - Real.sin theta)
    let perimeter := radius * theta
    let hydraulic_radius := area / perimeter
    let flow := (m.k / manning_n) * area * hydraulic_radius ^ ((2 : ℝ) / 3) * Real.sqrt slope
    let velocity := flow / area
    let velocity_head := velocity ^ (2 : ℕ) / (2 * gravity)
    { flow := flow, depth := depth, area := area, perimeter := perimeter,
      hydraulic_radius := hydraulic_radius, velocity := velocity,
      velocity_head := velocity_head, depth_ratio := depth_ratio, is_full_flow := false }

/-- Bisection loop of `normal_depth` (hydraulics.rs
`ManningsEquation::normal_depth`), with the source's `max_iterations = 50`
as fuel; fuel 0 is the post-loop `Some((y_low + y_high) / 2.0)` return. -/
noncomputable def ManningsEquation.normal_depth_go
    (m : ManningsEquation) (flow diameter slope manning_n gravity : ℝ) :
    ℕ → ℝ → ℝ → Option ℝ
  | 0, y_low, y_high => some ((y_low + y_high) / 2)
  | fuel + 1, y_low, y_high =>
    let y_mid := (y_low + y_high) / 2
    let q_mid := (m.partial_pipe_flow diameter y_mid slope manning_n gravity).flow
    if |q_mid - flow| < 0.0001 then some y_mid
    else
      let bounds := if q_mid < flow then (y_mid, y_high) else (y_low, y_mid)
      if bounds.2 - bounds.1 < 0.0001 then some y_mid
      else m.normal_depth_go flow diameter slope manning_n gravity fuel bounds.1 bounds.2

/-- Normal depth for a given flow in a circular pipe (hydraulics.rs
`ManningsEquation::normal_depth`). -/
noncomputable def ManningsEquation.normal_depth
    (m : ManningsEquation) (flow diameter slope manning_n gravity : ℝ) : Option ℝ :=
  let q_full := m.full_pipe_capacity diameter slope manning_n
  if flow > q_full then some diameter
  else m.normal_depth_go flow diameter slope manning_n gravity 50 (0.0001 * diameter) diameter

/-- Bisection loop of `critical_depth` (hydraulics.rs
`ManningsEquation::critical_depth`), with the source's
`max_iterations = 50` as fuel. -/
noncomputable def ManningsEquation.critical_depth_go
    (m : ManningsEquation) (flow diameter gravity : ℝ) : ℕ → ℝ → ℝ → Option ℝ
  | 0, y_low, y_high => some ((y_low + y_high) / 2)
  | fuel + 1, y_low, y_high =>
    let radius := diameter / 2
    let y_mid := (y_low + y_high) / 2
    let theta := 2 * Real.arccos ((radius - y_mid) / radius)
    let area := (radius ^ (2 : ℕ) / 2) * (theta - Real.sin theta)
    let top_width := 2 * Real.sqrt (radius ^ (2 : ℕ) - (radius - y_mid) ^ (2 : ℕ))
    let lhs := flow ^ (2 : ℕ)
    let rhs := gravity * area ^ (3 : ℕ) / top_width
    if |lhs - rhs| < 0.0001 * lhs then some y_mid
    else if lhs > rhs then m.critical_depth_go flow diameter gravity fuel y_mid y_high
    else m.critical_depth_go flow diameter gravity fuel y_low y_mid

/-- Critical depth for a circular pipe (hydraulics.rs
`ManningsEquation::critical_depth`). -/
noncomputable def ManningsEquation.critical_depth
    (m : ManningsEquation) (flow diameter gravity : ℝ) : Option ℝ :=
  m.critical_depth_go flow diameter gravity 50 (0.0001 * diameter) diameter

/-- Froude number Fr = V / sqrt(g · A / T) (hydraulics.rs
`ManningsEquation::froude_number`). -/
noncomputable def ManningsEquation.froude_number
    (_m : ManningsEquation) (velocity area top_width gravity : ℝ) : ℝ :=
  let hydraulic_depth := area / top_width
  velocity / Real.sqrt (gravity * hydraulic_depth)

/-- Flow regime classification from a Froude number (hydraulics.rs
`ManningsEquation::flow_regime`); the critical tolerance is 0.05. -/
noncomputable def ManningsEquation.flow_regime
    (_m : ManningsEquation) (froude : ℝ) : FlowRegime :=
  if |froude - 1| < 0.05 then FlowRegime.Critical
  else if froude < 1 then FlowRegime.Subcritical
  else FlowRegime.Supercritical

/-- Froude-number computation as the specification describes it, with the
top width clamped to a small positive value `eps` before dividing; this
definition follows the spec's words (not the source) and exists only to be
compared with `ManningsEquation.froude_number`. -/
noncomputable def ManningsEquation.froude_number_clamped
    (_m : ManningsEquation) (velocity area top_width gravity eps : ℝ) : ℝ :=
  let clamped_width := max top_width eps
  let hydraulic_depth := area / clamped_width
  velocity / Real.sqrt (gravity * hydraulic_depth)

/-- Energy loss calculations (hydraulics.rs `EnergyLoss`). -/
structure EnergyLoss where
  gravity : ℝ

/-- Friction loss h_f = S_f · L, HEC-22 Equations 9.3/9.4 (hydraulics.rs
`EnergyLoss::friction_loss`). -/
noncomputable def EnergyLoss.friction_loss
    (_e : EnergyLoss) (flow length area hydraulic_radius manning_n k : ℝ) : ℝ :=
  let sf := ((flow * manning_n) / (k * area * hydraulic_radius ^ ((2 : ℝ) / 3))) ^ (2 : ℕ)
  sf * length

/-- Entrance loss H_i = K_i · V²/2g, HEC-22 Equation 9.15 (hydraulics.rs
`EnergyLoss::entrance_loss`). -/
noncomputable def EnergyLoss.entrance_loss
    (e : EnergyLoss) (velocity k_entrance : ℝ) : ℝ :=
  k_entrance * velocity ^ (2 : ℕ) / (2 * e.gravity)

/-- Exit loss, HEC-22 Equation 9.5 (hydraulics.rs `EnergyLoss::exit_loss`). -/
noncomputable def EnergyLoss.exit_loss
    (e : EnergyLoss) (v_upstream v_downstream k_exit : ℝ) : ℝ :=
  let vh_up := v_upstream ^ (2 : ℕ) / (2 * e.gravity)
  let vh_down := v_downstream ^ (2 : ℕ) / (2 * e.gravity)
  k_exit * max (vh_up - vh_down) 0

/-- Junction loss by the momentum equation, HEC-22 Equation 9.9
(hydraulics.rs `EnergyLoss::junction_loss`); `theta_j` in degrees. -/
noncomputable def EnergyLoss.junction_loss
    (e : EnergyLoss)
    (q_outlet q_inlet q_lateral v_outlet v_inlet v_lateral a_outlet a_inlet theta_j : ℝ) : ℝ :=
  let theta_rad := theta_j * Real.pi / 180
  let h_outlet := v_outlet ^ (2 : ℕ) / (2 * e.gravity)
  let h_inlet := v_inlet ^ (2 : ℕ) / (2 * e.gravity)
  let momentum_term := q_outlet * v_outlet - q_inlet * v_inlet
    - q_lateral * v_lateral * Real.cos theta_rad
  let denominator := 0.5 * e.gravity * (a_outlet + a_inlet)
  momentum_term / denominator + h_inlet - h_outlet

/-- Benching configuration for access holes (hydraulics.rs `BenchingType`). -/
inductive BenchingType where
  | Flat
  | Depressed
  | Improved
deriving DecidableEq

/-- Inflow pipe configuration for access hole analysis (hydraulics.rs
`InflowPipe`); `angle` is in degrees, 180° is straight through. -/
structure InflowPipe where
  flow : ℝ
  velocity : ℝ
  diameter : ℝ
  area : ℝ
  angle : ℝ
  invert_offset : ℝ

/-- FHWA Access Hole Method analysis results (hydraulics.rs
`AccessHoleResult`). -/
structure AccessHoleResult where
  initial_energy_level : ℝ
  outlet_control_energy : ℝ
  submerged_inlet_energy : ℝ
  unsubmerged_inlet_energy : ℝ
  benching_coefficient : ℝ
  angle_coefficient : ℝ
  plunging_coefficient : ℝ
  additional_loss : ℝ
  final_energy_level : ℝ
  egl_elevation : ℝ

/-- FHWA Access Hole Method for energy losses at access holes, HEC-22
Equations 9.11 through 9.31 (hydraulics.rs `FhwaAccessHoleMethod`). -/
structure FhwaAccessHoleMethod where
  gravity : ℝ

/-- Outflow pipe energy head from EGL and invert, HEC-22 Equation 9.12
(hydraulics.rs `FhwaAccessHoleMethod::energy_head_from_egl`). -/
noncomputable def FhwaAccessHoleMethod.energy_head_from_egl
    (_f : FhwaAccessHoleMethod) (egl invert_elevation : ℝ) : ℝ :=
  egl - invert_elevation

/-- Outlet control energy level, HEC-22 Equations 9.14/9.15 with K_i = 0.2
(hydraulics.rs `FhwaAccessHoleMethod::outlet_control_energy`). -/
noncomputable def FhwaAccessHoleMethod.outlet_control_energy
    (f : FhwaAccessHoleMethod) (outflow_energy_head outflow_velocity : ℝ) : ℝ :=
  let k_entrance := (0.2 : ℝ)
  let entrance_loss := k_entrance * outflow_velocity ^ (2 : ℕ) / (2 * f.gravity)
  outflow_energy_head + entrance_loss

/-- Discharge intensity DI = Q / (A · sqrt(g · D)), HEC-22 Equation 9.16
(hydraulics.rs `FhwaAccessHoleMethod::discharge_intensity`). -/
noncomputable def FhwaAccessHoleMethod.discharge_intensity
    (f : FhwaAccessHoleMethod) (flow area diameter : ℝ) : ℝ :=
  flow / (area * Real.sqrt (f.gravity * diameter))

/-- Submerged inlet control energy level E_ais = D_o · DI², HEC-22
Equation 9.17 (hydraulics.rs
`FhwaAccessHoleMethod::submerged_inlet_control`). -/
noncomputable def FhwaAccessHoleMethod.submerged_inlet_control
    (_f : FhwaAccessHoleMethod) (diameter discharge_intensity : ℝ) : ℝ :=
  diameter * discharge_intensity ^ (2 : ℕ)

/-- Unsubmerged inlet control energy level E_aiu = 1.6 · D_o · DI^0.67,
HEC-22 Equation 9.18 (hydraulics.rs
`FhwaAccessHoleMethod::unsubmerged_inlet_control`). -/
noncomputable def FhwaAccessHoleMethod.unsubmerged_inlet_control
    (_f : FhwaAccessHoleMethod) (diameter discharge_intensity : ℝ) : ℝ :=
  1.6 * diameter * discharge_intensity ^ (0.67 : ℝ)

/-- Initial access hole energy level E_ai = max(E_aio, E_ais, E_aiu),
HEC-22 Equation 9.13 (hydraulics.rs
`FhwaAccessHoleMethod::initial_energy_level`). -/
noncomputable def FhwaAccessHoleMethod.initial_energy_level
    (_f : FhwaAccessHoleMethod) (outlet_control submerged_inlet unsubmerged_inlet : ℝ) : ℝ :=
  max (max outlet_control submerged_inlet) unsubmerged_inlet

/-- Benching energy loss coefficient C_B from HEC-22 Table 9.5
(hydraulics.rs `FhwaAccessHoleMethod::benching_coefficient`). -/
noncomputable def FhwaAccessHoleMethod.benching_coefficient
    (_f : FhwaAccessHoleMethod)
    (benching_type : BenchingType) (initial_energy outflow_diameter : ℝ) : ℝ :=
  let ratio := initial_energy / outflow_diameter
  match benching_type with
  | BenchingType.Flat => if ratio > 2.5 then 0 else if ratio < 1 then 0 else 0
  | BenchingType.Depressed => if ratio > 2.5 then 0.5 else if ratio < 1 then 0.3 else 0.4
  | BenchingType.Improved => if ratio > 2.5 then -0.3 else if ratio < 1 then -0.5 else -0.4

/-- Flow-weighted inflow angle θ_w, HEC-22 Equation 9.21 (hydraulics.rs
`FhwaAccessHoleMethod::flow_weighted_angle`); 180 when the total flow is
not positive (all flows plunging). -/
noncomputable def FhwaAccessHoleMethod.flow_weighted_angle
    (_f : FhwaAccessHoleMethod) (inflow_pipes : List InflowPipe) : ℝ :=
  let sum_q_theta := (inflow_pipes.map (fun pipe => pipe.flow * pipe.angle)).sum
  let sum_q := (inflow_pipes.map (fun pipe => pipe.flow)).sum
  if sum_q > 0 then sum_q_theta / sum_q else 180

/-- Angled inflow coefficient C_θ, HEC-22 Equation 9.22 (hydraulics.rs
`FhwaAccessHoleMethod::angled_inflow_coefficient`). -/
noncomputable def FhwaAccessHoleMethod.angled_inflow_coefficient
    (_f : FhwaAccessHoleMethod) (total_inflow outflow flow_weighted_angle : ℝ) : ℝ :=
  if outflow > 0 then
    let angle_rad := (flow_weighted_angle / 2) * Real.pi / 180
    4.5 * (total_inflow / outflow) * Real.cos angle_rad
  else 0

/-- Relative plunge height h_k, HEC-22 Equation 9.24 (hydraulics.rs
`FhwaAccessHoleMethod::relative_plunge_height`). -/
noncomputable def FhwaAccessHoleMethod.relative_plunge_height
    (_f : FhwaAccessHoleMethod) (invert_offset initial_energy outflow_diameter : ℝ) : ℝ :=
  let z_k := min invert_offset (10 * outflow_diameter)
  (z_k - initial_energy) / outflow_diameter

/-- Plunging flow coefficient C_P, HEC-22 Equation 9.25 (hydraulics.rs
`FhwaAccessHoleMethod::plunging_flow_coefficient`). -/
noncomputable def FhwaAccessHoleMethod.plunging_flow_coefficient
    (f : FhwaAccessHoleMethod)
    (plunging_pipes : List InflowPipe) (initial_energy outflow outflow_diameter : ℝ) : ℝ :=
  if outflow > 0 then
    let total := (plunging_pipes.map (fun pipe =>
      pipe.flow * f.relative_plunge_height pipe.invert_offset initial_energy outflow_diameter)).sum
    total / outflow
  else 0

/-- Total additional loss H_a = max(0, (C_B + C_θ + C_P)(E_ai − E_i)),
HEC-22 Equation 9.27 (hydraulics.rs
`FhwaAccessHoleMethod::total_additional_loss`). -/
noncomputable def FhwaAccessHoleMethod.total_additional_loss
    (_f : FhwaAccessHoleMethod)
    (c_benching c_angle c_plunging initial_energy outflow_energy : ℝ) : ℝ :=
  let h_a := (c_benching + c_angle + c_plunging) * (initial_energy - outflow_energy)
  max h_a 0

/-- Final access hole energy level E_a = max(E_ai + H_a, E_i), HEC-22
Equation 9.28 (hydraulics.rs `FhwaAccessHoleMethod::final_energy_level`). -/
noncomputable def FhwaAccessHoleMethod.final_energy_level
    (_f : FhwaAccessHoleMethod) (initial_energy additional_loss outflow_energy : ℝ) : ℝ :=
  max (initial_energy + additional_loss) outflow_energy

/-- Access hole energy grade line elevation EGL_a = E_a + Z_a, HEC-22
Equation 9.29 (hydraulics.rs `FhwaAccessHoleMethod::access_hole_egl`). -/
noncomputable def FhwaAccessHoleMethod.access_hole_egl
    (_f : FhwaAccessHoleMethod) (final_energy access_hole_invert : ℝ) : ℝ :=
  final_energy + access_hole_invert

/-- Complete FHWA access hole analysis, HEC-22 Equations 9.11-9.31
(hydraulics.rs `FhwaAccessHoleMethod::analyze_access_hole`). -/
noncomputable def FhwaAccessHoleMethod.analyze_access_hole
    (f : FhwaAccessHoleMethod)
    (outflow_egl outflow_invert outflow_velocity outflow_flow
     outflow_diameter outflow_area : ℝ)
    (inflow_pipes : List InflowPipe) (benching : BenchingType)
    (access_hole_invert : ℝ) : AccessHoleResult :=
  let outflow_energy := f.energy_head_from_egl outflow_egl outflow_invert
  let outlet_control := f.outlet_control_energy outflow_energy outflow_velocity
  let di := f.discharge_intensity outflow_flow outflow_area outflow_diameter
  let submerged_inlet := f.submerged_inlet_control outflow_diameter di
  let unsubmerged_inlet := f.unsubmerged_inlet_control outflow_diameter di
  let initial_energy := f.initial_energy_level outlet_control submerged_inlet unsubmerged_inlet
  let parts := inflow_pipes.partition (fun pipe => pipe.invert_offset > initial_energy)
  let plunging := parts.1
  let non_plunging := parts.2
  let c_benching := f.benching_coefficient benching initial_energy outflow_diameter
  let theta_w := f.flow_weighted_angle non_plunging
  let total_non_plunging_flow := (non_plunging.map (fun p => p.flow)).sum
  let c_angle := f.angled_inflow_coefficient total_non_plunging_flow outflow_flow theta_w
  let c_plunging := f.plunging_flow_coefficient plunging initial_energy outflow_flow
    outflow_diameter
  let additional_loss := f.total_additional_loss c_benching c_angle c_plunging
    initial_energy outflow_energy
  let final_energy := f.final_energy_level initial_energy additional_loss outflow_energy
  let egl_elevation := f.access_hole_egl final_energy access_hole_invert
  { initial_energy_level := initial_energy,
    outlet_control_energy := outlet_control,
    submerged_inlet_energy := submerged_inlet,
    unsubmerged_inlet_energy := unsubmerged_inlet,
    benching_coefficient := c_benching,
    angle_coefficient := c_angle,
    plunging_coefficient := c_plunging,
    additional_loss := additional_loss,
    final_energy_level := final_energy,
    egl_elevation := egl_elevation }

/-- Unit constant for the gutter equation, US customary (gutter.rs
`GUTTER_K_US`). -/
noncomputable def GUTTER_K_US : ℝ := 0.56

/-- Unit constant for the gutter equation, SI metric (gutter.rs
`GUTTER_K_SI`). -/
noncomputable def GUTTER_K_SI : ℝ := 0.376

/-- Gutter flow result (gutter.rs `GutterFlowResult`). -/
structure GutterFlowResult where
  spread : ℝ
  flow : ℝ
  depth_at_curb : ℝ
  velocity : ℝ
  area : ℝ
  frontal_flow : Option ℝ
  side_flow : Option ℝ

/-- Uniform cross-slope gutter calculator (gutter.rs `UniformGutter`). -/
structure UniformGutter where
  manning_n : ℝ
  cross_slope : ℝ
  longitudinal_slope : ℝ
  gutter_width : Option ℝ

/-- Flow capacity of a uniform gutter for a given spread,
Q = (K/n) · S_x^(5/3) · S_L^(1/2) · T^(8/3) (gutter.rs
`UniformGutter::flow_capacity`). -/
noncomputable def UniformGutter.flow_capacity (g : UniformGutter) (spread k : ℝ) : ℝ :=
  (k / g.manning_n) * g.cross_slope ^ ((5 : ℝ) / 3)
    * Real.sqrt g.longitudinal_slope * spread ^ ((8 : ℝ) / 3)

/-- Spread of a uniform gutter for a given flow, closed-form inverse with
exponent 3/8 (gutter.rs `UniformGutter::spread_for_flow`). -/
noncomputable def UniformGutter.spread_for_flow (g : UniformGutter) (flow k : ℝ) : ℝ :=
  let numerator := flow * g.manning_n
  let denominator := k * g.cross_slope ^ ((5 : ℝ) / 3) * Real.sqrt g.longitudinal_slope
  (numerator / denominator) ^ ((3 : ℝ) / 8)

/-- Complete flow result of a uniform gutter for a given spread (gutter.rs
`UniformGutter::flow_result`). -/
noncomputable def UniformGutter.flow_result (g : UniformGutter) (spread k : ℝ) :
    GutterFlowResult :=
  let flow := g.flow_capacity spread k
  let depth_at_curb := spread * g.cross_slope
  let area := 0.5 * spread * depth_at_curb
  let velocity := if area > 0 then flow / area else 0
  { spread := spread, flow := flow, depth_at_curb := depth_at_curb,
    velocity := velocity, area := area, frontal_flow := none, side_flow := none }

/-- Complete flow result of a uniform gutter for a given flow (gutter.rs
`UniformGutter::result_for_flow`). -/
noncomputable def UniformGutter.result_for_flow (g : UniformGutter) (flow k : ℝ) :
    GutterFlowResult :=
  g.flow_result (g.spread_for_flow flow k) k

/-- Composite gutter section calculator (gutter.rs `CompositeGutter`). -/
structure CompositeGutter where
  manning_n : ℝ
  gutter_slope : ℝ
  roadway_slope : ℝ
  longitudinal_slope : ℝ
  gutter_width : ℝ
  local_depression : ℝ

/-- Total flow capacity of a composite section for a given spread
(gutter.rs `CompositeGutter::flow_capacity`); the depression is taken as
feet when < 1 and converted from inches otherwise. -/
noncomputable def CompositeGutter.flow_capacity (g : CompositeGutter) (spread k : ℝ) : ℝ :=
  let depression_ft := if g.local_depression < 1 then g.local_depression
    else g.local_depression / 12
  let sx_prime := g.gutter_slope + depression_ft / g.gutter_width
  let w_over_t := g.gutter_width / spread
  let sw_over_sx := g.roadway_slope / sx_prime
  (k / g.manning_n) * sx_prime ^ ((5 : ℝ) / 3)
    * Real.sqrt g.longitudinal_slope * spread ^ ((8 : ℝ) / 3)
    * (1 + sw_over_sx ^ ((8 : ℝ) / 3)
       - w_over_t ^ ((8 : ℝ) / 3) * sw_over_sx ^ ((8 : ℝ) / 3))

/-- Bisection loop of the composite gutter spread solver (gutter.rs
`CompositeGutter::spread_for_flow`), with `max_iterations = 50` as fuel;
fuel 0 is the post-loop `(t_low + t_high) / 2.0` return. -/
noncomputable def CompositeGutter.spread_for_flow_go
    (g : CompositeGutter) (flow k : ℝ) : ℕ → ℝ → ℝ → ℝ
  | 0, t_low, t_high => (t_low + t_high) / 2
  | fuel + 1, t_low, t_high =>
    let t_mid := (t_low + t_high) / 2
    let q_mid := g.flow_capacity t_mid k
    if |q_mid - flow| < 0.001 then t_mid
    else
      let bounds := if q_mid < flow then (t_mid, t_high) else (t_low, t_mid)
      if bounds.2 - bounds.1 < 0.001 then t_mid
      else g.spread_for_flow_go flow k fuel bounds.1 bounds.2

/-- Spread of a composite gutter for a given flow by bisection on
[gutter_width, 50] (gutter.rs `CompositeGutter::spread_for_flow`). -/
noncomputable def CompositeGutter.spread_for_flow (g : CompositeGutter) (flow k : ℝ) : ℝ :=
  g.spread_for_flow_go flow k 50 g.gutter_width 50

/-- Parabolic crown section calculator (gutter.rs `ParabolicCrown`). -/
structure ParabolicCrown where
  manning_n : ℝ
  crown_height : ℝ
  width_to_crown : ℝ
  longitudinal_slope : ℝ

/-- Equivalent cross slope of a parabolic crown at a given spread,
S_x(T) = 2 · h_c · T / T_c² (gutter.rs
`ParabolicCrown::equivalent_slope_at_spread`). -/
noncomputable def ParabolicCrown.equivalent_slope_at_spread
    (g : ParabolicCrown) (spread : ℝ) : ℝ :=
  2 * g.crown_height * spread / g.width_to_crown ^ (2 : ℕ)

/-- Flow capacity of a parabolic crown for a given spread (gutter.rs
`ParabolicCrown::flow_capacity`). -/
noncomputable def ParabolicCrown.flow_capacity (g : ParabolicCrown) (spread k : ℝ) : ℝ :=
  let sx_equiv := g.equivalent_slope_at_spread spread
  (k / g.manning_n) * sx_equiv ^ ((5 : ℝ) / 3)
    * Real.sqrt g.longitudinal_slope * spread ^ ((8 : ℝ) / 3)

/-- Bisection loop of the parabolic crown spread solver (gutter.rs
`ParabolicCrown::spread_for_flow`), with `max_iterations = 50` as fuel. -/
noncomputable def ParabolicCrown.spread_for_flow_go
    (g : ParabolicCrown) (flow k : ℝ) : ℕ → ℝ → ℝ → ℝ
  | 0, t_low, t_high => (t_low + t_high) / 2
  | fuel + 1, t_low, t_high =>
    let t_mid := (t_low + t_high) / 2
    let q_mid := g.flow_capacity t_mid k
    if |q_mid - flow| < 0.001 then t_mid
    else
      let bounds := if q_mid < flow then (t_mid, t_high) else (t_low, t_mid)
      if bounds.2 - bounds.1 < 0.001 then t_mid
      else g.spread_for_flow_go flow k fuel bounds.1 bounds.2

/-- Spread of a parabolic crown for a given flow by bisection on
[0.1, width_to_crown] (gutter.rs `ParabolicCrown::spread_for_flow`). -/
noncomputable def ParabolicCrown.spread_for_flow (g : ParabolicCrown) (flow k : ℝ) : ℝ :=
  g.spread_for_flow_go flow k 50 0.1 g.width_to_crown

/-- Inlet interception result (inlet.rs `InletInterceptionResult`). -/
structure InletInterceptionResult where
  approach_flow : ℝ
  intercepted_flow : ℝ
  bypass_flow : ℝ
  efficiency : ℝ
  spread : ℝ
  velocity : ℝ

/-- Bar configuration for grates in the inlet-calculation module
(inlet.rs `BarConfiguration`). -/
inductive BarConfiguration where
  | Parallel
  | Perpendicular
deriving DecidableEq

/-- Throat configuration for curb openings in the inlet-calculation module
(inlet.rs `ThroatType`). -/
inductive ThroatType where
  | Horizontal
  | Inclined
  | Vertical
deriving DecidableEq

/-- Grate inlet on grade (inlet.rs `GrateInletOnGrade`). -/
structure GrateInletOnGrade where
  length : ℝ
  width : ℝ
  bar_configuration : BarConfiguration
  clogging_factor : ℝ
  local_depression : ℝ

/-- Splash-over threshold velocity V₀ by bar configuration: 1.79 ft/s for
perpendicular bars, 0.49 ft/s for parallel bars (inlet.rs
`GrateInletOnGrade::frontal_efficiency`, the `v0` binding). -/
noncomputable def splash_over_threshold : BarConfiguration → ℝ
  | BarConfiguration.Perpendicular => 1.79
  | BarConfiguration.Parallel => 0.49

/-- Frontal flow interception efficiency (inlet.rs
`GrateInletOnGrade::frontal_efficiency`): E_f = R_f below V₀, and
E_f = 1 − (1 − R_f)(V/V₀ − 1) at or above V₀. -/
noncomputable def GrateInletOnGrade.frontal_efficiency
    (g : GrateInletOnGrade) (velocity ratio_frontal : ℝ) : ℝ :=
  let v0 := splash_over_threshold g.bar_configuration
  if velocity < v0 then ratio_frontal
  else
    let splash_over := (1 - ratio_frontal) * (velocity / v0 - 1)
    1 - splash_over

/-- Side flow interception efficiency E_s = K_x · (L/T)^1.8 with L/T
clamped to 1 (inlet.rs `GrateInletOnGrade::side_efficiency`). -/
noncomputable def GrateInletOnGrade.side_efficiency
    (g : GrateInletOnGrade) (spread : ℝ) : ℝ :=
  let kx : ℝ := match g.bar_configuration with
    | BarConfiguration.Perpendicular => 0.15
    | BarConfiguration.Parallel => 0.09
  let ratio := min (g.length / spread) 1
  kx * ratio ^ ((1.8 : ℝ))

/-- Interception of an on-grade grate inlet (inlet.rs
`GrateInletOnGrade::interception`). -/
noncomputable def GrateInletOnGrade.interception
    (g : GrateInletOnGrade) (approach_flow : ℝ) (gutter_result : GutterFlowResult) :
    InletInterceptionResult :=
  let spread := gutter_result.spread
  let velocity := gutter_result.velocity
  let w_over_t := min (g.width / spread) 1
  let ratio_frontal := 1 - (1 - w_over_t) ^ ((8 : ℝ) / 3)
  let ef := g.frontal_efficiency velocity ratio_frontal
  let es := g.side_efficiency spread
  let efficiency_gross := ef + es - ef * es
  let efficiency := efficiency_gross * (1 - g.clogging_factor)
  let intercepted_flow := approach_flow * efficiency
  let bypass_flow := approach_flow - intercepted_flow
  { approach_flow := approach_flow, intercepted_flow := intercepted_flow,
    bypass_flow := bypass_flow, efficiency := efficiency,
    spread := spread, velocity := velocity }

/-- Curb opening inlet on grade (inlet.rs `CurbOpeningInletOnGrade`). -/
structure CurbOpeningInletOnGrade where
  length : ℝ
  height : ℝ
  throat_type : ThroatType
  clogging_factor : ℝ

/-- Curb opening length required for total interception,
L_T = 0.6 · Q^0.42 / V^0.3 (inlet.rs
`CurbOpeningInletOnGrade::length_for_total_interception`). -/
noncomputable def CurbOpeningInletOnGrade.length_for_total_interception
    (flow velocity : ℝ) : ℝ :=
  let ku := (0.6 : ℝ)
  ku * flow ^ ((0.42 : ℝ)) / velocity ^ ((0.3 : ℝ))

/-- Interception of an on-grade curb opening inlet (inlet.rs
`CurbOpeningInletOnGrade::interception`). -/
noncomputable def CurbOpeningInletOnGrade.interception
    (c : CurbOpeningInletOnGrade) (approach_flow : ℝ) (gutter_result : GutterFlowResult) :
    InletInterceptionResult :=
  let velocity := gutter_result.velocity
  let l_t := CurbOpeningInletOnGrade.length_for_total_interception approach_flow velocity
  let efficiency_gross := if c.length ≥ l_t then 1
    else 1 - (1 - c.length / l_t) ^ ((1.8 : ℝ))
  let efficiency := efficiency_gross * (1 - c.clogging_factor)
  let intercepted_flow := approach_flow * efficiency
  let bypass_flow := approach_flow - intercepted_flow
  { approach_flow := approach_flow, intercepted_flow := intercepted_flow,
    bypass_flow := bypass_flow, efficiency := efficiency,
    spread := gutter_result.spread, velocity := velocity }

/-- Combination inlet on grade, grate plus curb opening (inlet.rs
`CombinationInletOnGrade`). -/
structure CombinationInletOnGrade where
  grate : GrateInletOnGrade
  curb_opening : CurbOpeningInletOnGrade

/-- Interception of a combination inlet: the grate intercepts first, then
the curb opening intercepts from the grate's bypass (inlet.rs
`CombinationInletOnGrade::interception`). -/
noncomputable def CombinationInletOnGrade.interception
    (ci : CombinationInletOnGrade) (approach_flow : ℝ) (gutter_result : GutterFlowResult) :
    InletInterceptionResult :=
  let grate_result := ci.grate.interception approach_flow gutter_result
  if grate_result.bypass_flow > 0 then
    let curb_result := ci.curb_opening.interception grate_result.bypass_flow gutter_result
    let total_intercepted := grate_result.intercepted_flow + curb_result.intercepted_flow
    let total_bypass := curb_result.bypass_flow
    let total_efficiency := total_intercepted / approach_flow
    { approach_flow := approach_flow, intercepted_flow := total_intercepted,
      bypass_flow := total_bypass, efficiency := total_efficiency,
      spread := gutter_result.spread, velocity := gutter_result.velocity }
  else grate_result

/-- Analysis method tag (analysis.rs `AnalysisMethod`). -/
inductive AnalysisMethod where
  | Rational
  | Scs
  | KinematicWave
  | DynamicWave
deriving DecidableEq

/-- Flow regime classification in the analysis module (analysis.rs
`FlowRegime`), distinct from the hydraulics module's `FlowRegime`. -/
inductive AnalysisFlowRegime where
  | Subcritical
  | Critical
  | Supercritical
deriving DecidableEq

/-- Head loss components of a conduit (analysis.rs `HeadLoss`). -/
structure HeadLoss where
  friction : Option ℝ
  entrance : Option ℝ
  exit : Option ℝ
  bend : Option ℝ
  total : Option ℝ

/-- Computed results at a node (analysis.rs `NodeResult`). -/
structure NodeResult where
  node_id : String
  hgl : Option ℝ
  egl : Option ℝ
  depth : Option ℝ
  velocity : Option ℝ
  flooding : Option Bool
  pressure_head : Option ℝ
  junction_loss : Option ℝ

/-- Computed results for a conduit (analysis.rs `ConduitResult`). -/
structure ConduitResult where
  conduit_id : String
  flow : Option ℝ
  velocity : Option ℝ
  depth : Option ℝ
  capacity_used : Option ℝ
  froude_number : Option ℝ
  flow_regime : Option AnalysisFlowRegime
  headloss : Option HeadLoss

/-- Violation type (analysis.rs `ViolationType`). -/
inductive ViolationType where
  | Spread
  | Hgl
  | Velocity
  | Cover
  | Capacity
  | Flooding
deriving DecidableEq

/-- Severity level (analysis.rs `Severity`). -/
inductive Severity where
  | Error
  | Warning
  | Info
deriving DecidableEq

/-- Design criteria violation (analysis.rs `Violation`). -/
structure Violation where
  violation_type : ViolationType
  severity : Severity
  element_id : String
  message : String
  value : Option ℝ
  limit : Option ℝ

/-- An HGL violation record (analysis.rs `Violation::hgl_violation`); the
numeric text formatting of the source's message is not modelled. -/
def Violation.hgl_violation (element_id : String) (hgl rim : ℝ) (severity : Severity) :
    Violation :=
  { violation_type := ViolationType.Hgl, severity := severity,
    element_id := element_id, message := "HGL above rim elevation",
    value := some hgl, limit := some rim }

/-- Analysis results (analysis.rs `Analysis`); `timestamp` (a wall-clock
string) and `solver` info are external concerns modelled as absent. -/
structure Analysis where
  method : Option AnalysisMethod
  design_storm_id : Option String
  node_results : Option (List NodeResult)
  conduit_results : Option (List ConduitResult)
  drainage_area_results : Option (List NodeResult) := none
  violations : Option (List Violation)

/-- HGL/EGL solver configuration (solver.rs `SolverConfig`). -/
structure SolverConfig where
  gravity : ℝ
  manning_k : ℝ
  max_iterations : ℕ
  tolerance : ℝ

/-- US customary configuration preset (solver.rs
`SolverConfig::us_customary`). -/
noncomputable def SolverConfig.us_customary : SolverConfig :=
  { gravity := 32.17, manning_k := 1.486, max_iterations := 50, tolerance := 0.001 }

/-- HGL/EGL solver (solver.rs `HglSolver`). -/
structure HglSolver where
  config : SolverConfig
  mannings : ManningsEquation
  energy_loss : EnergyLoss
  fhwa_access_hole : FhwaAccessHoleMethod

/-- Create a solver from a configuration (solver.rs `HglSolver::new`). -/
noncomputable def HglSolver.new (config : SolverConfig) : HglSolver :=
  { config := config,
    mannings := { k := config.manning_k },
    energy_loss := { gravity := config.gravity },
    fhwa_access_hole := { gravity := config.gravity } }

/-- Tailwater elevation at an outfall, Step 1 of the HEC-22 procedure
(solver.rs `HglSolver::get_tailwater_elevation`). -/
noncomputable def HglSolver.get_tailwater_elevation (_s : HglSolver) (outfall : Node) :
    Except String ℝ :=
  match outfall.outfall with
  | none => Except.error "Node is not an outfall"
  | some outfall_props =>
    match outfall_props.boundary_condition with
    | BoundaryCondition.Free => Except.ok outfall.invert_elevation
    | BoundaryCondition.FixedStage =>
      match outfall_props.tailwater_elevation with
      | some tw => Except.ok tw
      | none => Except.error "Fixed stage outfall missing tailwater elevation"
    | BoundaryCondition.NormalDepth =>
      Except.ok (outfall_props.tailwater_elevation.getD outfall.invert_elevation)
    | BoundaryCondition.Tidal =>
      match outfall_props.tailwater_elevation with
      | some tw => Except.ok tw
      | none => Except.error "Tidal outfall missing tailwater elevation"

/-- Flow area of a circular pipe at a given depth (solver.rs
`HglSolver::circular_pipe_area`). -/
noncomputable def HglSolver.circular_pipe_area (_s : HglSolver) (diameter depth : ℝ) : ℝ :=
  if depth ≤ 0 then 0
  else if depth ≥ diameter then Real.pi * diameter * diameter / 4
  else
    let r := diameter / 2
    let h := depth
    let cos_half_theta := (r - h) / r
    let theta := 2 * Real.arccos cos_half_theta
    (r * r / 2) * (theta - Real.sin theta)

/-- State threaded through the recursive DFS of the conduit-ordering pass
(solver.rs `HglSolver::visit_node`): the `visited` and `visiting` sets and
the accumulated conduit order. -/
structure VisitState where
  visited : List String
  visiting : List String
  result : List String

/-- Recursive DFS for the conduit processing order (solver.rs
`HglSolver::visit_node`).  The source recurses on the node graph, bounded
by its `visited`/`visiting` sets; here the recursion carries fuel which
`topological_sort` sets to more than the node count, enough for every
acyclic path (a longer path would revisit a node and stop in the source
too). -/
def HglSolver.visit_node (network : Network) :
    ℕ → String → VisitState → Except String VisitState
  | 0, _, _ => Except.error "Circular dependency detected"
  | fuel + 1, node_id, st =>
    if st.visited.contains node_id then Except.ok st
    else if st.visiting.contains node_id then
      Except.error "Circular dependency detected"
    else
      let st₁ := { st with visiting := node_id :: st.visiting }
      let upstream := network.upstream_conduits node_id
      match upstream.foldlM (fun acc (conduit : Conduit) => do
          let acc₁ ← HglSolver.visit_node network fuel conduit.from_node acc
          Except.ok { acc₁ with result := acc₁.result ++ [conduit.id] }) st₁ with
      | Except.error e => Except.error e
      | Except.ok st₂ =>
        Except.ok { st₂ with
          visiting := st₂.visiting.erase node_id,
          visited := node_id :: st₂.visited }

/-- Conduit processing order, a DFS from every outfall walking upstream,
reversed to obtain downstream-first order (solver.rs
`HglSolver::topological_sort`). -/
def HglSolver.topological_sort (_s : HglSolver) (network : Network) :
    Except String (List String) := do
  let st ← network.outfalls.foldlM
    (fun st (outfall : Node) =>
      HglSolver.visit_node network (network.nodes.length + 1) outfall.id st)
    { visited := [], visiting := [], result := [] }
  Except.ok st.result.reverse

/-- Default conduit result for non-pipe conduits or zero flow (solver.rs
`HglSolver::default_conduit_result`). -/
def HglSolver.default_conduit_result (_s : HglSolver) (conduit : Conduit) (flow : ℝ) :
    ConduitResult :=
  { conduit_id := conduit.id, flow := some flow, velocity := none, depth := none,
    capacity_used := none, froude_number := none, flow_regime := none, headloss := none }

/-- HGL/EGL solution through a single pipe (solver.rs
`HglSolver::solve_pipe`). -/
noncomputable def HglSolver.solve_pipe
    (s : HglSolver) (conduit : Conduit) (flow downstream_hgl : ℝ) (network : Network) :
    Except String (ℝ × ℝ × ConduitResult) :=
  match conduit.pipe with
  | none => Except.error "Conduit is not a pipe"
  | some pipe_props =>
    match pipe_props.diameter with
    | none => Except.error "Pipe diameter not specified"
    | some diameter_inches =>
      let diameter := diameter_inches / 12
      match conduit.effective_slope with
      | none => Except.error "Pipe slope cannot be determined"
      | some slope =>
        match network.find_node conduit.to_node with
        | none => Except.error "Downstream node not found"
        | some downstream_node =>
          let downstream_invert := conduit.downstream_invert.getD
            downstream_node.invert_elevation
          let _upstream_invert := conduit.upstream_invert.getD
            (downstream_invert + slope * conduit.length)
          if flow > 0 then
            let q_full := s.mannings.full_pipe_capacity diameter slope pipe_props.manning_n
            let flow_result_opt : Except String PipeFlowResult :=
              if flow ≥ q_full then
                Except.ok (s.mannings.partial_pipe_flow diameter diameter slope
                  pipe_props.manning_n s.config.gravity)
              else
                match s.mannings.normal_depth flow diameter slope pipe_props.manning_n
                  s.config.gravity with
                | some depth =>
                  Except.ok (s.mannings.partial_pipe_flow diameter depth slope
                    pipe_props.manning_n s.config.gravity)
                | none => Except.error "Could not calculate normal depth"
            match flow_result_opt with
            | Except.error e => Except.error e
            | Except.ok flow_result =>
              let friction_loss := s.energy_loss.friction_loss flow conduit.length
                flow_result.area flow_result.hydraulic_radius pipe_props.manning_n
                s.config.manning_k
              let entrance_loss := s.energy_loss.entrance_loss flow_result.velocity
                (pipe_props.entrance_loss.getD 0.5)
              let exit_loss := s.energy_loss.exit_loss flow_result.velocity 0
                (pipe_props.exit_loss.getD 1)
              let bend_loss := match pipe_props.bend_loss with
                | some k_bend => k_bend * flow_result.velocity_head
                | none => 0
              let total_loss := friction_loss + entrance_loss + exit_loss + bend_loss
              let downstream_egl := downstream_hgl + flow_result.velocity_head
              let upstream_egl := downstream_egl + total_loss
              let upstream_hgl := upstream_egl - flow_result.velocity_head
              let conduit_result : ConduitResult :=
                { conduit_id := conduit.id,
                  flow := some flow,
                  velocity := some flow_result.velocity,
                  depth := some flow_result.depth,
                  capacity_used := some (flow / s.mannings.full_pipe_capacity diameter slope
                    pipe_props.manning_n),
                  froude_number := none,
                  flow_regime := some AnalysisFlowRegime.Subcritical,
                  headloss := some
                    { friction := some friction_loss, entrance := some entrance_loss,
                      exit := some exit_loss, bend := some bend_loss,
                      total := some total_loss } }
              Except.ok (upstream_hgl, upstream_egl, conduit_result)
          else
            Except.ok (downstream_hgl, downstream_hgl, s.default_conduit_result conduit flow)

/-- HGL/EGL solution through a single conduit (solver.rs
`HglSolver::solve_conduit`): gutters and channels pass the downstream HGL
through unchanged. -/
noncomputable def HglSolver.solve_conduit
    (s : HglSolver) (conduit : Conduit) (flow downstream_hgl : ℝ) (network : Network) :
    Except String (ℝ × ℝ × ConduitResult) :=
  match conduit.conduit_type with
  | ConduitType.Pipe => s.solve_pipe conduit flow downstream_hgl network
  | ConduitType.Gutter =>
    Except.ok (downstream_hgl, downstream_hgl, s.default_conduit_result conduit flow)
  | ConduitType.Channel =>
    Except.ok (downstream_hgl, downstream_hgl, s.default_conduit_result conduit flow)

/-- Association list of `String` keys to real values, modelling the
solver's `HashMap<String, f64>` tables. -/
abbrev AssocR := List (String × ℝ)

/-- Apply `f` to the binding of `key` when present, the no-op otherwise;
models `HashMap::get_mut` followed by an in-place update. -/
def update_first (m : AssocR) (key : String) (f : ℝ → ℝ) : AssocR :=
  match m with
  | [] => []
  | (k, v) :: rest =>
    if k == key then (k, f v) :: rest else (k, v) :: update_first rest key f

/-- Access hole loss by the FHWA method at a junction node (solver.rs
`HglSolver::calculate_access_hole_loss`): builds the inflow-pipe list from
the upstream conduits (first pipe straight through at 180°, others at
90°), runs `analyze_access_hole` with Flat benching, and returns
`final_energy_level − (outflow_egl − outflow_invert)`. -/
noncomputable def HglSolver.calculate_access_hole_loss
    (s : HglSolver) (node : Node) (outlet_conduit : Conduit)
    (upstream_conduits : List Conduit)
    (flows velocities areas node_egls : AssocR) (network : Network) : ℝ :=
  let q_outlet := (flows.lookup outlet_conduit.id).getD 0
  let v_outlet := (velocities.lookup outlet_conduit.id).getD 0
  let a_outlet := (areas.lookup outlet_conduit.id).getD 1
  let d_outlet := match outlet_conduit.pipe with
    | some pipe_props => (pipe_props.diameter.getD 24) / 12
    | none => 2
  let outflow_egl := (node_egls.lookup node.id).getD node.invert_elevation
  let outflow_invert := node.invert_elevation
  let inflow_pipes := upstream_conduits.enum.map (fun (p : ℕ × Conduit) =>
    let idx := p.1
    let conduit := p.2
    let flow := (flows.lookup conduit.id).getD 0
    let velocity := (velocities.lookup conduit.id).getD 0
    let area := (areas.lookup conduit.id).getD 1
    let diameter := match conduit.pipe with
      | some pipe_props => (pipe_props.diameter.getD 24) / 12
      | none => 2
    let angle : ℝ := if idx == 0 then 180 else 90
    let from_node := (upstream_conduits.find? (fun c => c.id == conduit.id)).bind
      (fun c => network.nodes.find? (fun n => n.id == c.from_node))
    let invert_offset := match from_node with
      | some fr => max (fr.invert_elevation - node.invert_elevation) 0
      | none => 0
    ({ flow := flow, velocity := velocity, diameter := diameter, area := area,
       angle := angle, invert_offset := invert_offset } : InflowPipe))
  let benching := BenchingType.Flat
  let result := s.fhwa_access_hole.analyze_access_hole outflow_egl outflow_invert
    v_outlet q_outlet d_outlet a_outlet inflow_pipes benching node.invert_elevation
  result.final_energy_level - (outflow_egl - outflow_invert)

/-- Simple junction loss by HEC-22 Equation 9.9, the fallback method
(solver.rs `HglSolver::calculate_simple_junction_loss`); the head of the
sorted inlet list is total in the source because the guard ensures at
least two upstream conduits, so the empty match arm returns 0. -/
noncomputable def HglSolver.calculate_simple_junction_loss
    (s : HglSolver) (upstream_conduits downstream_conduits : List Conduit)
    (flows velocities areas : AssocR) : ℝ :=
  if upstream_conduits.length < 2 ∨ downstream_conduits.isEmpty then 0
  else
    match downstream_conduits with
    | [] => 0
    | outlet_conduit :: _ =>
      let q_outlet := (flows.lookup outlet_conduit.id).getD 0
      let v_outlet := (velocities.lookup outlet_conduit.id).getD 0
      let a_outlet := (areas.lookup outlet_conduit.id).getD 1
      if q_outlet ≤ 0 then 0
      else
        let inlet_conduits := upstream_conduits.mergeSort (fun a b =>
          decide ((flows.lookup b.id).getD 0 ≤ (flows.lookup a.id).getD 0))
        match inlet_conduits with
        | [] => 0
        | inlet_conduit :: rest =>
          let q_inlet := (flows.lookup inlet_conduit.id).getD 0
          let v_inlet := (velocities.lookup inlet_conduit.id).getD 0
          let a_inlet := (areas.lookup inlet_conduit.id).getD 1
          let lateral_pair := match rest with
            | [] => ((0 : ℝ), (0 : ℝ))
            | lateral :: _ =>
              ((flows.lookup lateral.id).getD 0, (velocities.lookup lateral.id).getD 0)
          let theta_j := (90 : ℝ)
          s.energy_loss.junction_loss q_outlet q_inlet lateral_pair.1 v_outlet v_inlet
            lateral_pair.2 a_outlet a_inlet theta_j

/-- State threaded through the conduit-processing loop of `solve`
(solver.rs `HglSolver::solve`, the per-conduit `for` loop): the HGL/EGL
tables, the cached per-conduit velocities and areas, and the accumulated
conduit results. -/
structure ConduitPassState where
  node_hgls : AssocR
  node_egls : AssocR
  conduit_velocities : AssocR
  conduit_areas : AssocR
  conduit_results : List ConduitResult

/-- Conduit-processing loop of `solve` (solver.rs `HglSolver::solve`,
Steps 2-3): walks the traversal order, solving each conduit against the
downstream HGL and caching velocity and area for the access-hole pass. -/
noncomputable def HglSolver.process_conduits
    (s : HglSolver) (network : Network) (flows : AssocR) (order : List String)
    (init : ConduitPassState) : Except String ConduitPassState :=
  order.foldlM (fun st conduit_id => do
    let conduit ← match network.find_conduit conduit_id with
      | some c => Except.ok c
      | none => Except.error "Conduit not found"
    let flow := (flows.lookup conduit.id).getD 0
    let downstream_hgl ← match st.node_hgls.lookup conduit.to_node with
      | some h => Except.ok h
      | none => Except.error "HGL not computed for node"
    let res ← s.solve_conduit conduit flow downstream_hgl network
    let upstream_hgl := res.1
    let upstream_egl := res.2.1
    let conduit_result := res.2.2
    let node_hgls := (conduit.from_node, upstream_hgl) :: st.node_hgls
    let node_egls := (conduit.from_node, upstream_egl) :: st.node_egls
    let conduit_velocities := match conduit_result.velocity with
      | some velocity => (conduit.id, velocity) :: st.conduit_velocities
      | none => st.conduit_velocities
    let conduit_areas := match conduit_result.depth with
      | some depth =>
        match conduit.pipe with
        | some pipe =>
          match pipe.diameter with
          | some diameter =>
            (conduit.id, s.circular_pipe_area (diameter / 12) depth) :: st.conduit_areas
          | none => st.conduit_areas
        | none => st.conduit_areas
      | none => st.conduit_areas
    Except.ok { node_hgls := node_hgls, node_egls := node_egls,
                conduit_velocities := conduit_velocities, conduit_areas := conduit_areas,
                conduit_results := st.conduit_results ++ [conduit_result] }) init

/-- Access-hole pass of `solve` (solver.rs `HglSolver::solve`, the
junction `for` loop): for every junction node with converging flows,
computes the junction head loss (the FHWA method whenever there is at
least one upstream conduit, Equation 9.9 otherwise), records it, and adds
it to each upstream pipe's stored upstream EGL.  Returns the updated EGL
table and the junction-loss table. -/
noncomputable def HglSolver.apply_junction_losses
    (s : HglSolver) (network : Network) (flows velocities areas : AssocR)
    (node_egls : AssocR) : AssocR × AssocR :=
  network.nodes.foldl (fun (p : AssocR × AssocR) node =>
    if !node.is_junction then p
    else
      let upstream_conduits := network.upstream_conduits node.id
      let downstream_conduits := network.downstream_conduits node.id
      if upstream_conduits.isEmpty ∨ downstream_conduits.isEmpty then p
      else
        match downstream_conduits with
        | [] => p
        | outlet_conduit :: _ =>
          let q_outlet := (flows.lookup outlet_conduit.id).getD 0
          if q_outlet ≤ 0 then p
          else
            let use_fhwa_method := decide (1 ≤ upstream_conduits.length)
            let junction_head_loss :=
              if use_fhwa_method then
                s.calculate_access_hole_loss node outlet_conduit upstream_conduits
                  flows velocities areas p.1 network
              else
                s.calculate_simple_junction_loss upstream_conduits downstream_conduits
                  flows velocities areas
            let node_junction_losses := (node.id, junction_head_loss) :: p.2
            let node_egls := upstream_conduits.foldl (fun egls inlet =>
              update_first egls inlet.from_node (fun e => e + junction_head_loss)) p.1
            (node_egls, node_junction_losses)) (node_egls, [])

/-- Per-node body of the node-result assembly loop of `solve` (solver.rs
`HglSolver::solve`, Step 4): for a node with a computed HGL, build its
`NodeResult` and an HGL violation when the HGL exceeds the rim. -/
noncomputable def assemble_node_results_step
    (node_hgls node_egls node_depths node_velocities node_junction_losses : AssocR)
    (acc : List NodeResult × List Violation) (node : Node) :
    List NodeResult × List Violation :=
  match node_hgls.lookup node.id with
  | none => acc
  | some hgl =>
    let egl := (node_egls.lookup node.id).getD hgl
    let velocity := (node_velocities.lookup node.id).getD 0
    let depth := (node_depths.lookup node.id).getD 0
    let flooding := match node.rim_elevation with
      | some rim => decide (hgl > rim)
      | none => false
    let result : NodeResult :=
      { node_id := node.id, hgl := some hgl, egl := some egl, depth := some depth,
        velocity := some velocity, flooding := some flooding,
        pressure_head := some (hgl - node.invert_elevation),
        junction_loss := node_junction_losses.lookup node.id }
    let violations := match node.rim_elevation with
      | some rim =>
        if hgl > rim then [Violation.hgl_violation node.id hgl rim Severity.Error]
        else []
      | none => []
    (acc.1 ++ [result], acc.2 ++ violations)

/-- Node-result assembly of `solve` (solver.rs `HglSolver::solve`, Step
4): fold the per-node body over every node of the network. -/
noncomputable def assemble_node_results
    (nodes : List Node)
    (node_hgls node_egls node_depths node_velocities node_junction_losses : AssocR) :
    List NodeResult × List Violation :=
  nodes.foldl
    (assemble_node_results_step node_hgls node_egls node_depths node_velocities
      node_junction_losses) ([], [])

/-- Solve the network for HGL/EGL (solver.rs `HglSolver::solve`): Step 1
tailwaters at the outfalls, the downstream-first conduit pass, the
access-hole pass, then node-result assembly.  The source's
`node_depths` and `node_velocities` tables are declared and read but
never written; they are the empty tables here as there. -/
noncomputable def HglSolver.solve
    (s : HglSolver) (network : Network) (flows : AssocR) (design_storm_id : String) :
    Except String Analysis := do
  let node_depths : AssocR := []
  let node_velocities : AssocR := []
  let outfalls := network.outfalls
  if outfalls.isEmpty then
    Except.error "Network has no outfall nodes"
  else do
    let tables ← outfalls.foldlM (fun (p : AssocR × AssocR) outfall => do
      let tailwater ← s.get_tailwater_elevation outfall
      Except.ok ((outfall.id, tailwater) :: p.1, (outfall.id, tailwater) :: p.2))
      (([] : AssocR), ([] : AssocR))
    let node_hgls := tables.1
    let node_egls := tables.2
    let traversal_order ← s.topological_sort network
    let st ← s.process_conduits network flows traversal_order
      { node_hgls := node_hgls, node_egls := node_egls, conduit_velocities := [],
        conduit_areas := [], conduit_results := [] }
    let junction_tables := s.apply_junction_losses network flows st.conduit_velocities
      st.conduit_areas st.node_egls
    let assembled := assemble_node_results network.nodes st.node_hgls junction_tables.1
      node_depths node_velocities junction_tables.2
    Except.ok
      { method := some AnalysisMethod.Rational,
        design_storm_id := some design_storm_id,
        node_results := some assembled.1,
        conduit_results := some st.conduit_results,
        drainage_area_results := some [],
        violations := some assembled.2 }

/-- Inlet interception tracking for flow routing (solver.rs
`InletInterception`). -/
structure InletInterception where
  node_id : String
  approach_flow : ℝ
  intercepted_flow : ℝ
  bypass_flow : ℝ
  efficiency : ℝ
  spread : ℝ

/-- Inlet interception at an inlet node during flow routing (solver.rs
`calculate_inlet_interception`): sag inlets capture everything; on-grade
inlets run the HEC-22 interception for their type against a default
uniform gutter; slotted drains are a fixed 80% efficiency. -/
noncomputable def calculate_inlet_interception
    (node : Node) (inlet_props : InletProperties) (approach_flow k : ℝ) :
    Except String (ℝ × ℝ × Option InletInterception) :=
  if approach_flow ≤ 0 then Except.ok (0, 0, none)
  else if inlet_props.location = InletLocation.Sag then
    let result : InletInterception :=
      { node_id := node.id, approach_flow := approach_flow,
        intercepted_flow := approach_flow, bypass_flow := 0,
        efficiency := 1, spread := 0 }
    Except.ok (approach_flow, 0, some result)
  else
    let manning_n := (0.016 : ℝ)
    let cross_slope := (0.02 : ℝ)
    let longitudinal_slope := (0.01 : ℝ)
    let gutter : UniformGutter :=
      { manning_n := manning_n, cross_slope := cross_slope,
        longitudinal_slope := longitudinal_slope, gutter_width := none }
    let gutter_result := gutter.result_for_flow approach_flow k
    let local_depression := inlet_props.local_depression.getD 0
    let clogging_factor := inlet_props.clogging_factor.getD 0.15
    let interception : InletInterceptionResult :=
      match inlet_props.inlet_type with
      | InletType.Grate =>
        match inlet_props.grate with
        | some grate_props =>
          let length := grate_props.length.getD 3
          let width := grate_props.width.getD 2
          let bar_config := match grate_props.bar_configuration with
            | some NodeBarConfiguration.Parallel => BarConfiguration.Parallel
            | _ => BarConfiguration.Perpendicular
          let inlet : GrateInletOnGrade :=
            { length := length, width := width, bar_configuration := bar_config,
              clogging_factor := clogging_factor, local_depression := local_depression }
          inlet.interception approach_flow gutter_result
        | none =>
          let inlet : GrateInletOnGrade :=
            { length := 3, width := 2, bar_configuration := BarConfiguration.Perpendicular,
              clogging_factor := 0.15, local_depression := 2 }
          inlet.interception approach_flow gutter_result
      | InletType.CurbOpening =>
        match inlet_props.curb_opening with
        | some curb_props =>
          let length := curb_props.length.getD 5
          let height := curb_props.height.getD 0.5
          let throat_type := match curb_props.throat_type with
            | some NodeThroatType.Inclined => ThroatType.Inclined
            | some NodeThroatType.Vertical => ThroatType.Vertical
            | _ => ThroatType.Horizontal
          let inlet : CurbOpeningInletOnGrade :=
            { length := length, height := height, throat_type := throat_type,
              clogging_factor := clogging_factor }
          inlet.interception approach_flow gutter_result
        | none =>
          let inlet : CurbOpeningInletOnGrade :=
            { length := 5, height := 0.5, throat_type := ThroatType.Horizontal,
              clogging_factor := 0.10 }
          inlet.interception approach_flow gutter_result
      | InletType.Combination =>
        let grate_length := (inlet_props.grate.bind (fun g => g.length)).getD 3
        let grate_width := (inlet_props.grate.bind (fun g => g.width)).getD 2
        let bar_config := match inlet_props.grate.bind (fun g => g.bar_configuration) with
          | some NodeBarConfiguration.Parallel => BarConfiguration.Parallel
          | _ => BarConfiguration.Perpendicular
        let curb_length := (inlet_props.curb_opening.bind (fun c => c.length)).getD 5
        let curb_height := (inlet_props.curb_opening.bind (fun c => c.height)).getD 0.5
        let curb_throat := match inlet_props.curb_opening.bind (fun c => c.throat_type) with
          | some NodeThroatType.Inclined => ThroatType.Inclined
          | some NodeThroatType.Vertical => ThroatType.Vertical
          | _ => ThroatType.Horizontal
        let grate : GrateInletOnGrade :=
          { length := grate_length, width := grate_width, bar_configuration := bar_config,
            clogging_factor := clogging_factor, local_depression := local_depression }
        let curb : CurbOpeningInletOnGrade :=
          { length := curb_length, height := curb_height, throat_type := curb_throat,
            clogging_factor := clogging_factor }
        let combo : CombinationInletOnGrade := { grate := grate, curb_opening := curb }
        combo.interception approach_flow gutter_result
      | InletType.Slotted =>
        { approach_flow := approach_flow,
          intercepted_flow := approach_flow * 0.80,
          bypass_flow := approach_flow * 0.20,
          efficiency := 0.80,
          spread := gutter_result.spread,
          velocity := gutter_result.velocity }
    let result : InletInterception :=
      { node_id := node.id, approach_flow := interception.approach_flow,
        intercepted_flow := interception.intercepted_flow,
        bypass_flow := interception.bypass_flow,
        efficiency := interception.efficiency, spread := interception.spread }
    Except.ok (interception.intercepted_flow, interception.bypass_flow, some result)

/-- Proposition that every successful result of a pipe solve carries no
Froude number and reports Subcritical flow regime. -/
def regime_fields_fixed (e : Except String (ℝ × ℝ × ConduitResult)) : Prop :=
  ∀ upstream_hgl upstream_egl r,
    e = Except.ok (upstream_hgl, upstream_egl, r) →
      r.froude_number = none ∧ r.flow_regime = some AnalysisFlowRegime.Subcritical

/-- Proposition that a successful routed-interception result splits the
approach flow exactly: intercepted + bypass = q. -/
def interception_conserves (e : Except String (ℝ × ℝ × Option InletInterception)) (q : ℝ) :
    Prop :=
  ∀ intercepted bypass r, e = Except.ok (intercepted, bypass, r) → intercepted + bypass = q

/-- US-customary solver instance used for concrete checks. -/
noncomputable def hs1 : HglSolver := HglSolver.new SolverConfig.us_customary

/-- Manning calculator with the US constant, used for concrete checks. -/
noncomputable def me1 : ManningsEquation := { k := 1.486 }

/-- Outfall properties of the one-node fixture network: fixed stage with
tailwater elevation 5. -/
def out_props1 : OutfallProperties :=
  { boundary_condition := BoundaryCondition.FixedStage, tailwater_elevation := some 5 }

/-- Outfall node of the one-node fixture network, invert elevation 3. -/
def out_node1 : Node :=
  { id := "OUT", node_type := NodeType.Outfall, invert_elevation := 3,
    rim_elevation := none, junction := none, inlet := none, outfall := some out_props1 }

/-- One-node fixture network: a single fixed-stage outfall, no conduits. -/
def net1 : Network := { nodes := [out_node1], conduits := [] }

/-- Node result the solver produces for `net1`: hgl 5, egl 5, depth 0,
velocity 0, no flooding, pressure head 2, no junction loss. -/
def nr1 : NodeResult :=
  { node_id := "OUT", hgl := some 5, egl := some 5, depth := some 0,
    velocity := some 0, flooding := some false, pressure_head := some (5 - 3),
    junction_loss := none }

/-- Analysis the solver produces for `net1` under storm id "S". -/
def ana1 : Analysis :=
  { method := some AnalysisMethod.Rational, design_storm_id := some "S",
    node_results := some [nr1], conduit_results := some [],
    drainage_area_results := some [], violations := some [] }

/-- Free-boundary outfall node, invert elevation 7, used for the tailwater
checks. -/
def node_free : Node :=
  { id := "OF", node_type := NodeType.Outfall, invert_elevation := 7,
    rim_elevation := none, junction := none, inlet := none,
    outfall := some { boundary_condition := BoundaryCondition.Free,
                      tailwater_elevation := some 9 } }

/-- Pipe conduit fixture (18 inch circular pipe with explicit slope). -/
def pipe_props1 : PipeProperties :=
  { shape := PipeShape.Circular, diameter := some 18, width := none, height := none,
    manning_n := 0.013, entrance_loss := none, exit_loss := none, bend_loss := none }

/-- Conduit fixture from "IN" to "OUT" wrapping `pipe_props1`. -/
def cond1 : Conduit :=
  { id := "P1", conduit_type := ConduitType.Pipe, from_node := "IN", to_node := "OUT",
    length := 100, upstream_invert := none, downstream_invert := none,
    slope := some 0.01, pipe := some pipe_props1 }

/-- Slotted on-grade inlet properties fixture. -/
def ip_slotted : InletProperties :=
  { inlet_type := InletType.Slotted, location := InletLocation.OnGrade,
    grate := none, curb_opening := none, local_depression := none,
    clogging_factor := none }

/-- Inlet node fixture carrying `ip_slotted`. -/
def in_node1 : Node :=
  { id := "IN", node_type := NodeType.Inlet, invert_elevation := 0,
    rim_elevation := some 10, junction := none, inlet := some ip_slotted,
    outfall := none }

/-- Perpendicular-bar grate inlet fixture (3 ft by 2 ft, 15% clogging,
2 inch depression). -/
def g4 : GrateInletOnGrade :=
  { length := 3, width := 2, bar_configuration := BarConfiguration.Perpendicular,
    clogging_factor := 0.15, local_depression := 2 }

/-- Uniform gutter fixture with unit parameters. -/
def ug1 : UniformGutter :=
  { manning_n := 1, cross_slope := 1, longitudinal_slope := 1, gutter_width := none }

/-- Composite gutter fixture with an extreme roughness (n = 10⁹), a unit
gutter slope, zero roadway slope and zero depression: its flow capacities
over the whole bisection bracket differ by less than the 0.001 flow
tolerance. -/
def cg1 : CompositeGutter :=
  { manning_n := 1000000000, gutter_slope := 1, roadway_slope := 0,
    longitudinal_slope := 1, gutter_width := 2, local_depression := 0 }

/-- Curb-opening inlet fixture (5 ft by 0.5 ft horizontal throat). -/
def curb1 : CurbOpeningInletOnGrade :=
  { length := 5, height := 0.5, throat_type := ThroatType.Horizontal,
    clogging_factor := 0.1 }

/-- Combination inlet fixture pairing `g4` and `curb1`. -/
def combo1 : CombinationInletOnGrade := { grate := g4, curb_opening := curb1 }

/-- Gutter flow result fixture with unit spread, flow, depth, velocity and
area. -/
def gr1 : GutterFlowResult :=
  { spread := 1, flow := 1, depth_at_curb := 1, velocity := 1, area := 1,
    frontal_flow := none, side_flow := none }

/-- Claim C2: for every input to the FHWA access-hole analysis, the
additional loss H_a is nonnegative and the final energy level E_a is at
least the outflow energy head E_i = EGL_o − invert_o; hence the junction
loss the solver reports, `final_energy_level − (outflow_egl −
outflow_invert)`, is nonnegative. -/
theorem c2_access_hole_loss_nonneg :
    (∀ (f : FhwaAccessHoleMethod)
       (outflow_egl outflow_invert outflow_velocity outflow_flow
        outflow_diameter outflow_area : ℝ)
       (inflow_pipes : List InflowPipe) (benching : BenchingType)
       (access_hole_invert : ℝ),
       0 ≤ (f.analyze_access_hole outflow_egl outflow_invert outflow_velocity
             outflow_flow outflow_diameter outflow_area inflow_pipes benching
             access_hole_invert).additional_loss ∧
       outflow_egl - outflow_invert ≤
         (f.analyze_access_hole outflow_egl outflow_invert outflow_velocity
           outflow_flow outflow_diameter outflow_area inflow_pipes benching
           access_hole_invert).final_energy_level) ∧
    (∀ (s : HglSolver) (node : Node) (outlet_conduit : Conduit)
       (upstream_conduits : List Conduit)
       (flows velocities areas node_egls : AssocR) (network : Network),
       0 ≤ s.calculate_access_hole_loss node outlet_conduit upstream_conduits
             flows velocities areas node_egls network) := by
  constructor
  · intro f outflow_egl outflow_invert outflow_velocity outflow_flow
      outflow_diameter outflow_area inflow_pipes benching access_hole_invert
    simp only [FhwaAccessHoleMethod.analyze_access_hole,
      FhwaAccessHoleMethod.total_additional_loss,
      FhwaAccessHoleMethod.final_energy_level,
      FhwaAccessHoleMethod.energy_head_from_egl]
    exact ⟨le_max_right _ _, le_max_right _ _⟩
  · intro s node outlet_conduit upstream_conduits flows velocities areas node_egls network
    simp only [HglSolver.calculate_access_hole_loss,
      FhwaAccessHoleMethod.analyze_access_hole,
      FhwaAccessHoleMethod.total_additional_loss,
      FhwaAccessHoleMethod.final_energy_level,
      FhwaAccessHoleMethod.energy_head_from_egl]
    exact sub_nonneg.mpr (le_max_right _ _)

/-- Claim C4 counterexample: for the perpendicular-bar grate `g4` with
approach velocity 7.16 ft/s (four times the 1.79 ft/s splash-over
threshold) and frontal ratio 0.5, the frontal efficiency evaluates to
−0.5: it is not floored at 0 and is negative. -/
theorem c4_counterexample_frontal_efficiency_negative :
    splash_over_threshold g4.bar_configuration ≤ 7.16 ∧
    g4.frontal_efficiency 7.16 0.5 = -(1 / 2) ∧
    g4.frontal_efficiency 7.16 0.5 < 0 := by
  refine ⟨by norm_num [g4, splash_over_threshold], ?_, ?_⟩ <;>
    · simp only [GrateInletOnGrade.frontal_efficiency, splash_over_threshold, g4]
      norm_num

/-- Claim C4 amended: at or above the splash-over threshold V₀ the frontal
efficiency equals 1 − (1 − R_f)(V/V₀ − 1) with no floor at 0 (for large V
it becomes negative, as the counterexample shows). -/
theorem c4_frontal_efficiency_above_threshold
    (g : GrateInletOnGrade) (velocity ratio_frontal : ℝ)
    (h : splash_over_threshold g.bar_configuration ≤ velocity) :
    g.frontal_efficiency velocity ratio_frontal
      = 1 - (1 - ratio_frontal)
          * (velocity / splash_over_threshold g.bar_configuration - 1) := by
  simp only [GrateInletOnGrade.frontal_efficiency]
  rw [if_neg (not_lt.mpr h)]

/-- Claim C4 witness: the amended statement at the threshold velocity for
the concrete grate `g4`. -/
theorem c4_frontal_efficiency_witness :
    g4.frontal_efficiency 1.79 0
      = 1 - (1 - 0) * (1.79 / splash_over_threshold g4.bar_configuration - 1) :=
  c4_frontal_efficiency_above_threshold g4 1.79 0
    (by norm_num [g4, splash_over_threshold])

/-- Claim C8 counterexample: at zero top width (flow depth equal to the
diameter) with velocity 1, area 1 and gravity 1, the source Froude
computation divides by the zero top width and returns 0, while the
spec-modelled clamped computation (clamp 0.001) returns a nonzero value:
no clamping is applied in the code. -/
theorem c8_counterexample_no_clamp :
    me1.froude_number 1 1 0 1 = 0 ∧
    me1.froude_number_clamped 1 1 0 1 0.001 ≠ 0 := by
  constructor
  · simp [ManningsEquation.froude_number, div_zero, mul_zero, Real.sqrt_zero]
  · simp only [ManningsEquation.froude_number_clamped]
    have h1 : max (0 : ℝ) 0.001 = 0.001 := by norm_num
    rw [h1]
    have h2 : (0 : ℝ) < Real.sqrt (1 * ((1 : ℝ) / 0.001)) := by
      apply Real.sqrt_pos.mpr; norm_num
    exact div_ne_zero one_ne_zero (ne_of_gt h2)

/-- Claim C8 amended: the source applies no clamp; at zero top width the
Froude number evaluates to 0 (the hydraulic depth `area / 0` is the Lean
total-division junk value 0, and under IEEE arithmetic `V / ∞` is 0 as
well), and the flow regime classifier therefore returns Subcritical. -/
theorem c8_froude_zero_top_width
    (m : ManningsEquation) (velocity area gravity : ℝ) :
    m.froude_number velocity area 0 gravity = 0 ∧
    m.flow_regime (m.froude_number velocity area 0 gravity)
      = FlowRegime.Subcritical := by
  have hf : m.froude_number velocity area 0 gravity = 0 := by
    simp [ManningsEquation.froude_number, div_zero, mul_zero, Real.sqrt_zero]
  refine ⟨hf, ?_⟩
  rw [hf]
  simp only [ManningsEquation.flow_regime]
  rw [if_neg (by norm_num), if_pos (by norm_num)]

/-- Claim C6: the Step-1 tailwater computation returns the invert
elevation for a Free boundary, the supplied tailwater (or the invert when
absent) for a NormalDepth boundary, and for FixedStage or Tidal boundaries
errs exactly when the tailwater elevation is missing and returns the
supplied tailwater otherwise. -/
theorem c6_tailwater_by_boundary
    (s : HglSolver) (node : Node) (props : OutfallProperties)
    (h : node.outfall = some props) :
    (props.boundary_condition = BoundaryCondition.Free →
      s.get_tailwater_elevation node = Except.ok node.invert_elevation) ∧
    (props.boundary_condition = BoundaryCondition.NormalDepth →
      s.get_tailwater_elevation node
        = Except.ok (props.tailwater_elevation.getD node.invert_elevation)) ∧
    ((props.boundary_condition = BoundaryCondition.FixedStage ∨
        props.boundary_condition = BoundaryCondition.Tidal) →
      ((∃ e, s.get_tailwater_elevation node = Except.error e) ↔
        props.tailwater_elevation = none) ∧
      (∀ tw, props.tailwater_elevation = some tw →
        s.get_tailwater_elevation node = Except.ok tw)) := by
  simp only [HglSolver.get_tailwater_elevation, h]
  refine ⟨fun hb => by rw [hb], fun hb => by rw [hb], fun hb => ?_⟩
  rcases hb with hb | hb <;> rw [hb] <;>
    cases htw : props.tailwater_elevation with
    | none => simp [htw]
    | some tw => simp [htw]

/-- Claim C6 witness: the Free-boundary case at the concrete outfall
`node_free` with invert elevation 7. -/
theorem c6_tailwater_witness :
    hs1.get_tailwater_elevation node_free = Except.ok 7 :=
  (c6_tailwater_by_boundary hs1 node_free
    { boundary_condition := BoundaryCondition.Free, tailwater_elevation := some 9 }
    rfl).1 rfl

/-- Claim C3: for the on-grade grate, curb-opening and combination inlet
interception computations, intercepted plus bypass flow equals the
approach flow exactly (for the combination inlet after the grate's bypass
is fed to the curb opening); and for the slotted on-grade routing branch
(80% fixed efficiency) any successful result also conserves the approach
flow. -/
theorem c3_interception_conserves_flow
    (g : GrateInletOnGrade) (c : CurbOpeningInletOnGrade)
    (ci : CombinationInletOnGrade) (q : ℝ) (gr : GutterFlowResult)
    (node : Node) (props : InletProperties) (k : ℝ)
    (hslot : props.inlet_type = InletType.Slotted)
    (hloc : props.location = InletLocation.OnGrade)
    (hq : 0 < q) :
    (g.interception q gr).intercepted_flow + (g.interception q gr).bypass_flow = q ∧
    (c.interception q gr).intercepted_flow + (c.interception q gr).bypass_flow = q ∧
    (ci.interception q gr).intercepted_flow + (ci.interception q gr).bypass_flow = q ∧
    interception_conserves (calculate_inlet_interception node props q k) q := by
  refine ⟨?_, ?_, ?_, ?_⟩
  · simp only [GrateInletOnGrade.interception]
    ring
  · simp only [CurbOpeningInletOnGrade.interception]
    ring
  · simp only [CombinationInletOnGrade.interception, GrateInletOnGrade.interception,
      CurbOpeningInletOnGrade.interception]
    split <;> ring
  · intro intercepted bypass r h
    simp only [calculate_inlet_interception, hslot, hloc] at h
    rw [if_neg (not_le.mpr hq)] at h
    rw [if_neg (by decide : ¬(InletLocation.OnGrade = InletLocation.Sag))] at h
    injection h with h1
    injection h1 with hi hrest
    injection hrest with hb hr
    subst hi
    subst hb
    linarith

/-- Claim C3 witness: the slotted branch at approach flow 1 through the
concrete inlet node `in_node1` conserves the flow. -/
theorem c3_interception_witness :
    interception_conserves (calculate_inlet_interception in_node1 ip_slotted 1 GUTTER_K_US)
      1 :=
  (c3_interception_conserves_flow g4 curb1 combo1 1 gr1 in_node1 ip_slotted GUTTER_K_US
    rfl rfl (by norm_num)).2.2.2

/-- Claim C7 amended: for the uniform triangular gutter with positive
parameters the round-trip `spread_for_flow (flow_capacity T k) k` recovers
T exactly (the inverse is in closed form); for the composite and parabolic
gutters the bisection can return a spread off by far more than 0.1, as the
counterexample shows. -/
theorem c7_uniform_round_trip
    (g : UniformGutter) (T k : ℝ)
    (hk : 0 < k) (hn : 0 < g.manning_n) (hx : 0 < g.cross_slope)
    (hl : 0 < g.longitudinal_slope) (hT : 0 ≤ T) :
    g.spread_for_flow (g.flow_capacity T k) k = T := by
  have hsx : (0:ℝ) < g.cross_slope ^ ((5:ℝ)/3) := Real.rpow_pos_of_pos hx _
  have hsl : (0:ℝ) < Real.sqrt g.longitudinal_slope := Real.sqrt_pos.mpr hl
  have hn' := hn.ne'
  have hk' := hk.ne'
  have hsx' := hsx.ne'
  have hsl' := hsl.ne'
  simp only [UniformGutter.spread_for_flow, UniformGutter.flow_capacity]
  have hinner : k / g.manning_n * g.cross_slope ^ ((5:ℝ)/3)
      * Real.sqrt g.longitudinal_slope * T ^ ((8:ℝ)/3) * g.manning_n
      / (k * g.cross_slope ^ ((5:ℝ)/3) * Real.sqrt g.longitudinal_slope)
      = T ^ ((8:ℝ)/3) := by
    field_simp
  rw [hinner, ← Real.rpow_mul hT]
  rw [show ((8:ℝ)/3 * (3/8)) = 1 by norm_num, Real.rpow_one]

/-- Claim C7 witness: the uniform round-trip at unit parameters and unit
spread. -/
theorem c7_uniform_round_trip_witness :
    ug1.spread_for_flow (ug1.flow_capacity 1 1) 1 = 1 :=
  c7_uniform_round_trip ug1 1 1 (by norm_num) (by norm_num [ug1])
    (by norm_num [ug1]) (by norm_num [ug1]) (by norm_num)

/-- Flow capacity of the extreme-roughness composite fixture in closed
form: with unit gutter slope, zero roadway slope and zero depression every
term but the leading one vanishes. -/
theorem cg1_flow_capacity_closed (T : ℝ) :
    cg1.flow_capacity T 1 = T ^ ((8:ℝ)/3) / 1000000000 := by
  have h83 : ((8:ℝ)/3) ≠ 0 := by norm_num
  simp only [CompositeGutter.flow_capacity, cg1]
  rw [if_pos (by norm_num : (0:ℝ) < 1)]
  norm_num [Real.one_rpow, Real.sqrt_one, Real.zero_rpow h83]
  ring

/-- Early exit of the composite bisection: when the first midpoint's flow
already matches within the 0.001 tolerance, that midpoint is returned. -/
theorem composite_spread_go_early
    (g : CompositeGutter) (flow k : ℝ) (fuel : ℕ) (lo hi : ℝ)
    (h : |g.flow_capacity ((lo + hi) / 2) k - flow| < 0.001) :
    g.spread_for_flow_go flow k (fuel + 1) lo hi = (lo + hi) / 2 := by
  simp only [CompositeGutter.spread_for_flow_go]
  rw [if_pos h]

/-- Claim C7 counterexample: for the composite gutter `cg1` and the
admissible spread T = 10 (inside the bisection bracket [2, 50]), the
round-trip `spread_for_flow (flow_capacity 10 1) 1` returns 26 — the
first bisection midpoint — because all flow capacities over the bracket
differ by less than the 0.001 flow tolerance; the recovered spread misses
T = 10 by 16, far more than 0.1. -/
theorem c7_counterexample_composite_round_trip :
    0.1 < |cg1.spread_for_flow (cg1.flow_capacity 10 1) 1 - 10| := by
  have ha : ((26:ℝ)) ^ ((8:ℝ)/3) < 1000000 := by
    have h1 : ((26:ℝ)) ^ ((8:ℝ)/3) < 26 ^ (3:ℝ) :=
      Real.rpow_lt_rpow_of_exponent_lt (by norm_num) (by norm_num)
    have h2 : (26:ℝ) ^ (3:ℝ) = 17576 := by
      rw [show (3:ℝ) = ((3:ℕ):ℝ) by norm_num, Real.rpow_natCast]; norm_num
    linarith
  have hb : (0:ℝ) ≤ (10:ℝ) ^ ((8:ℝ)/3) := Real.rpow_nonneg (by norm_num) _
  have hc : (10:ℝ) ^ ((8:ℝ)/3) ≤ (26:ℝ) ^ ((8:ℝ)/3) :=
    Real.rpow_le_rpow (by norm_num) (by norm_num) (by norm_num)
  have key : cg1.spread_for_flow (cg1.flow_capacity 10 1) 1 = 26 := by
    have h2 : cg1.gutter_width = 2 := rfl
    simp only [CompositeGutter.spread_for_flow, h2]
    rw [show (50:ℕ) = 49 + 1 from rfl]
    rw [composite_spread_go_early]
    · norm_num
    · rw [show ((2:ℝ) + 50) / 2 = 26 by norm_num]
      rw [cg1_flow_capacity_closed, cg1_flow_capacity_closed]
      rw [abs_of_nonneg (by linarith)]
      linarith
  rw [key]
  rw [show |(26:ℝ) - 10| = 16 by rw [abs_of_nonneg (by norm_num)]; norm_num]
  norm_num

/-- Bisection bound for the normal-depth loop: from a bracket
`y_low < y_high ≤ diameter`, every exit returns a midpoint strictly below
the diameter. -/
theorem normal_depth_go_lt_diameter
    (m : ManningsEquation) (flow diameter slope manning_n gravity : ℝ) :
    ∀ (fuel : ℕ) (y_low y_high : ℝ), y_low < y_high → y_high ≤ diameter →
      ∀ y, m.normal_depth_go flow diameter slope manning_n gravity fuel y_low y_high
             = some y →
        y < diameter := by
  intro fuel
  induction fuel with
  | zero =>
    intro lo hi hlh hhd y hy
    simp only [ManningsEquation.normal_depth_go] at hy
    injection hy with hy
    linarith
  | succ fuel ih =>
    intro lo hi hlh hhd y hy
    simp only [ManningsEquation.normal_depth_go] at hy
    by_cases h1 : |(m.partial_pipe_flow diameter ((lo + hi) / 2) slope manning_n
        gravity).flow - flow| < 0.0001
    · rw [if_pos h1] at hy
      injection hy with hy
      linarith
    · rw [if_neg h1] at hy
      by_cases h2 : (m.partial_pipe_flow diameter ((lo + hi) / 2) slope manning_n
          gravity).flow < flow
      · rw [if_pos h2] at hy
        dsimp only at hy
        by_cases h3 : hi - (lo + hi) / 2 < 0.0001
        · rw [if_pos h3] at hy
          injection hy with hy
          linarith
        · rw [if_neg h3] at hy
          exact ih ((lo + hi) / 2) hi (by linarith) hhd y hy
      · rw [if_neg h2] at hy
        dsimp only at hy
        by_cases h3 : (lo + hi) / 2 - lo < 0.0001
        · rw [if_pos h3] at hy
          injection hy with hy
          linarith
        · rw [if_neg h3] at hy
          exact ih lo ((lo + hi) / 2) (by linarith) (by linarith) y hy

/-- The normal-depth bisection loop always returns a value. -/
theorem normal_depth_go_total
    (m : ManningsEquation) (flow diameter slope manning_n gravity : ℝ) :
    ∀ (fuel : ℕ) (y_low y_high : ℝ),
      ∃ y, m.normal_depth_go flow diameter slope manning_n gravity fuel y_low y_high
             = some y := by
  intro fuel
  induction fuel with
  | zero =>
    intro lo hi
    exact ⟨(lo + hi) / 2, rfl⟩
  | succ fuel ih =>
    intro lo hi
    simp only [ManningsEquation.normal_depth_go]
    split
    · exact ⟨_, rfl⟩
    · split <;> split
      · exact ⟨_, rfl⟩
      · exact ih _ _
      · exact ⟨_, rfl⟩
      · exact ih _ _

/-- The normal-depth solver returns a value on every input: no control
path yields `none`. -/
theorem normal_depth_total
    (m : ManningsEquation) (flow diameter slope manning_n gravity : ℝ) :
    ∃ y, m.normal_depth flow diameter slope manning_n gravity = some y := by
  by_cases h : flow > m.full_pipe_capacity diameter slope manning_n
  · exact ⟨diameter, by simp [ManningsEquation.normal_depth, h]⟩
  · obtain ⟨y, hy⟩ := normal_depth_go_total m flow diameter slope manning_n gravity 50
      (0.0001 * diameter) diameter
    exact ⟨y, by simp [ManningsEquation.normal_depth, h, hy]⟩

/-- The critical-depth bisection loop always returns a value. -/
theorem critical_depth_go_total
    (m : ManningsEquation) (flow diameter gravity : ℝ) :
    ∀ (fuel : ℕ) (y_low y_high : ℝ),
      ∃ y, m.critical_depth_go flow diameter gravity fuel y_low y_high = some y := by
  intro fuel
  induction fuel with
  | zero =>
    intro lo hi
    exact ⟨(lo + hi) / 2, rfl⟩
  | succ fuel ih =>
    intro lo hi
    simp only [ManningsEquation.critical_depth_go]
    split
    · exact ⟨_, rfl⟩
    · split
      · exact ih _ _
      · exact ih _ _

/-- The critical-depth solver returns a value on every input: no control
path yields `none`. -/
theorem critical_depth_total
    (m : ManningsEquation) (flow diameter gravity : ℝ) :
    ∃ y, m.critical_depth flow diameter gravity = some y := by
  unfold ManningsEquation.critical_depth
  exact critical_depth_go_total m flow diameter gravity 50 _ _

/-- Claim C9: `normal_depth` and `critical_depth` return `some` on every
input despite their Option type, so the solver's "Could not calculate
normal depth" error branch in `solve_pipe` is unreachable. -/
theorem c9_depth_solvers_never_none :
    (∀ (m : ManningsEquation) (flow diameter slope manning_n gravity : ℝ),
       (m.normal_depth flow diameter slope manning_n gravity).isSome) ∧
    (∀ (m : ManningsEquation) (flow diameter gravity : ℝ),
       (m.critical_depth flow diameter gravity).isSome) ∧
    (∀ (s : HglSolver) (conduit : Conduit) (flow downstream_hgl : ℝ)
       (network : Network),
       s.solve_pipe conduit flow downstream_hgl network
         ≠ Except.error "Could not calculate normal depth") := by
  refine ⟨?_, ?_, ?_⟩
  · intro m flow diameter slope manning_n gravity
    obtain ⟨y, hy⟩ := normal_depth_total m flow diameter slope manning_n gravity
    simp [hy]
  · intro m flow diameter gravity
    obtain ⟨y, hy⟩ := critical_depth_total m flow diameter gravity
    simp [hy]
  · intro s conduit flow downstream_hgl network h
    simp only [HglSolver.solve_pipe] at h
    split at h
    case _ => injection h with h; exact absurd h (by decide)
    case _ pipe_props hpp =>
      split at h
      case _ => injection h with h; exact absurd h (by decide)
      case _ diameter_inches hdi =>
        split at h
        case _ => injection h with h; exact absurd h (by decide)
        case _ slope hsl =>
          split at h
          case _ => injection h with h; exact absurd h (by decide)
          case _ downstream_node hdn =>
            split at h
            case isTrue hpos =>
              obtain ⟨y, hy⟩ := normal_depth_total s.mannings flow (diameter_inches / 12)
                slope pipe_props.manning_n s.config.gravity
              split at h
              case _ e heq =>
                split at heq
                · exact Except.noConfusion heq
                · split at heq
                  case _ d hnd => exact Except.noConfusion heq
                  case _ hnd => rw [hy] at hnd; exact Option.noConfusion hnd
              case _ fr heq => exact Except.noConfusion h
            case isFalse hpos => exact Except.noConfusion h

/-- Claim C5 counterexample: at the boundary flow Q = Q_full for a unit
pipe, `normal_depth` does not return the diameter — the strict `>` guard
sends the boundary case to the bisection, which always returns a depth
strictly below the diameter. -/
theorem c5_counterexample_boundary_flow :
    me1.normal_depth (me1.full_pipe_capacity 1 1 1) 1 1 1 32.17 ≠ some 1 := by
  intro hcontra
  simp only [ManningsEquation.normal_depth] at hcontra
  rw [if_neg (gt_irrefl (me1.full_pipe_capacity 1 1 1))] at hcontra
  have hlt := normal_depth_go_lt_diameter me1 (me1.full_pipe_capacity 1 1 1) 1 1 1 32.17
    50 (0.0001 * 1) 1 (by norm_num) (by norm_num) 1 hcontra
  exact absurd hlt (lt_irrefl 1)

/-- Claim C5 amended: for a positive diameter, `normal_depth` returns the
full diameter only when the flow strictly exceeds the full-pipe capacity;
when Q ≤ Q_full — including the boundary Q = Q_full — the bisection runs
and returns a depth strictly less than the diameter. -/
theorem c5_normal_depth_pressurized
    (m : ManningsEquation) (flow diameter slope manning_n gravity : ℝ)
    (hD : 0 < diameter) :
    (flow > m.full_pipe_capacity diameter slope manning_n →
       m.normal_depth flow diameter slope manning_n gravity = some diameter) ∧
    (flow ≤ m.full_pipe_capacity diameter slope manning_n →
       ∃ y, m.normal_depth flow diameter slope manning_n gravity = some y ∧
         y < diameter) := by
  constructor
  · intro h
    simp [ManningsEquation.normal_depth, h]
  · intro h
    obtain ⟨y, hy⟩ := normal_depth_go_total m flow diameter slope manning_n gravity 50
      (0.0001 * diameter) diameter
    refine ⟨y, ?_, ?_⟩
    · simp [ManningsEquation.normal_depth, not_lt.mpr h, hy]
    · exact normal_depth_go_lt_diameter m flow diameter slope manning_n gravity 50
        (0.0001 * diameter) diameter (by nlinarith) le_rfl y hy

/-- Claim C5 witness: a flow strictly above the unit pipe's full capacity
is reported at the full diameter. -/
theorem c5_normal_depth_witness :
    me1.normal_depth (me1.full_pipe_capacity 1 1 1 + 1) 1 1 1 32.17 = some 1 :=
  (c5_normal_depth_pressurized me1 (me1.full_pipe_capacity 1 1 1 + 1) 1 1 1 32.17
    (by norm_num)).1 (lt_add_one _)

/-- Claim C10: for every pipe conduit with positive flow, any conduit
result `solve_pipe` produces has `froude_number = none` and
`flow_regime = some Subcritical`, whatever the hydraulic state — the
regime classifier is never consulted. -/
theorem c10_solve_pipe_regime_constant
    (s : HglSolver) (conduit : Conduit) (flow downstream_hgl : ℝ) (network : Network)
    (hq : 0 < flow) :
    regime_fields_fixed (s.solve_pipe conduit flow downstream_hgl network) := by
  intro upstream_hgl upstream_egl r h
  simp only [HglSolver.solve_pipe] at h
  split at h
  case _ => exact Except.noConfusion h
  case _ pipe_props hpp =>
    split at h
    case _ => exact Except.noConfusion h
    case _ diameter_inches hdi =>
      split at h
      case _ => exact Except.noConfusion h
      case _ slope hsl =>
        split at h
        case _ => exact Except.noConfusion h
        case _ downstream_node hdn =>
          split at h
          case isTrue hpos =>
            split at h
            case _ e heq => exact Except.noConfusion h
            case _ fr heq =>
              injection h with h1
              injection h1 with h2 h3
              injection h3 with h4 h5
              rw [← h5]
              exact ⟨rfl, rfl⟩
          case isFalse hpos => exact absurd hq (by simpa using hpos)

/-- Claim C10 witness: the regime fields of the concrete pipe `cond1` at
flow 1. -/
theorem c10_regime_witness :
    regime_fields_fixed (hs1.solve_pipe cond1 1 0 net1) :=
  c10_solve_pipe_regime_constant hs1 cond1 1 0 net1 (by norm_num)

/-- Inversion of a successful `Except` bind: the first stage succeeded and
its value fed the continuation. -/
theorem except_bind_ok {α β : Type} {e : Except String α} {f : α → Except String β} {b : β}
    (h : e >>= f = Except.ok b) : ∃ a, e = Except.ok a ∧ f a = Except.ok b := by
  cases e with
  | error s => simp [Bind.bind, Except.bind] at h
  | ok a => exact ⟨a, rfl, by simpa [Bind.bind, Except.bind] using h⟩

/-- The assembly fold records depth `some 0` for every node whenever the
depth table is empty, as it is in `solve` (the source never writes to
`node_depths`). -/
theorem assemble_foldl_depth_zero
    (node_hgls node_egls node_velocities node_junction_losses : AssocR) :
    ∀ (nodes : List Node) (acc : List NodeResult × List Violation),
      (∀ r ∈ acc.1, r.depth = some 0) →
      ∀ r ∈ (List.foldl
          (assemble_node_results_step node_hgls node_egls [] node_velocities
            node_junction_losses) acc nodes).1,
        r.depth = some 0 := by
  intro nodes
  induction nodes with
  | nil => intro acc hacc r hr; exact hacc r hr
  | cons node rest ih =>
    intro acc hacc r hr
    refine ih _ ?_ r hr
    intro r2 hr2
    unfold assemble_node_results_step at hr2
    cases hlk : List.lookup node.id node_hgls with
    | none => rw [hlk] at hr2; exact hacc r2 hr2
    | some hgl =>
      rw [hlk] at hr2
      dsimp only at hr2
      rcases List.mem_append.mp hr2 with hmem | hmem
      · exact hacc r2 hmem
      · rcases List.mem_singleton.mp hmem with rfl
        rfl

/-- The solver's output on the one-node fixture network: the fixed-stage
tailwater 5 becomes the node's HGL and EGL, depth is recorded as 0, and
the pressure head is hgl − invert = 5 − 3. -/
theorem solve_net1_eval : hs1.solve net1 [] "S" = Except.ok ana1 := rfl

/-- Claim C1 amended: every node result `HglSolver::solve` records carries
depth `some 0` — the solver's `node_depths` table is never written, so the
recorded depth is the `unwrap_or(0.0)` default, not hgl − invert (which is
recorded in `pressure_head` instead). -/
theorem c1_solve_records_zero_depth
    (s : HglSolver) (network : Network) (flows : AssocR) (sid : String) (a : Analysis)
    (h : s.solve network flows sid = Except.ok a) :
    ∀ r ∈ a.node_results.getD [], r.depth = some 0 := by
  simp only [HglSolver.solve] at h
  split at h
  · exact Except.noConfusion h
  · obtain ⟨tables, h1, h⟩ := except_bind_ok h
    obtain ⟨order, h2, h⟩ := except_bind_ok h
    obtain ⟨st, h3, h⟩ := except_bind_ok h
    injection h with h
    rw [← h]
    simp only [assemble_node_results, Option.getD_some]
    exact assemble_foldl_depth_zero _ _ _ _ network.nodes ([], []) (by simp)

/-- Claim C1 witness: the solver's concrete run on the one-node network,
with the recorded depth of its node result being `some 0`. -/
theorem c1_solve_depth_witness :
    hs1.solve net1 [] "S" = Except.ok ana1 ∧ nr1.depth = some 0 :=
  ⟨solve_net1_eval,
    c1_solve_records_zero_depth hs1 net1 [] "S" ana1 solve_net1_eval nr1
      (by simp [ana1])⟩

/-- Claim C1 counterexample: on the one-node fixture the solver computes
hgl = 5 at the node with invert elevation 3, yet the node result's depth
is `some 0`, not `some (5 − 3)`: depth does not equal hgl minus invert. -/
theorem c1_counterexample_depth_not_hgl_minus_invert :
    hs1.solve net1 [] "S" = Except.ok ana1 ∧
    nr1 ∈ ana1.node_results.getD [] ∧
    nr1.hgl = some 5 ∧
    (net1.find_node "OUT").map Node.invert_elevation = some 3 ∧
    nr1.depth ≠ some (5 - 3) := by
  refine ⟨solve_net1_eval, by simp [ana1], rfl, rfl, ?_⟩
  simp only [nr1, ne_eq, Option.some.injEq]
  norm_num
